import Mathlib

/-!
Shallow embedding of the step-sequencing and report-synthesis engine of
`src/Joystick.c` (a Nintendo Switch controller emulator).  The engine is a
deterministic state machine: once per poll tick the transport layer calls
`GetNextReport`, which either replays the cached report (echo throttle) or
dispatches to one of three step executors (`ExecuteStep`,
`ExecuteStepLoop`, `ExecuteStepPartialLoop`) selected by the current phase,
then runs the phase-wrap logic.  Machine integers (C `int`, `uint8_t`,
`uint16_t`) are modelled as `Nat`: on all states reachable in the scope of the claims every counter stays far below any overflow boundary, and the only
subtraction sites (`echoes--` guarded by `echoes > 0`, and the comparison
`loop_num < num_its - 1` with `loop_num ≥ 0`) agree with truncated
subtraction.
-/

set_option maxRecDepth 4000

/-- Modelled from the spec: the outgoing report frame
(`USB_JoystickReport_Input_t`, declared in `Joystick.h`, which is not part
of the sources): a button bitmask, a directional-pad field, and four 8-bit
analog axes. -/
structure Report where
  Button : Nat
  HAT : Nat
  LX : Nat
  LY : Nat
  RX : Nat
  RY : Nat
deriving DecidableEq, Repr

/-- Modelled from the spec: one atomic timed input step (`Step_t`, declared
in `Joystick.h`): a button bitmask, the two primary stick axes, and a hold
duration in poll ticks. -/
structure Step where
  Button : Nat
  LX : Nat
  LY : Nat
  Duration : Nat
deriving DecidableEq, Repr

/-- Modelled from the spec: stick axis minimum (from `Joystick.h`). -/
def STICK_MIN : Nat := 0

/-- Modelled from the spec: stick axis center / neutral (from `Joystick.h`). -/
def STICK_CENTER : Nat := 128

/-- Modelled from the spec: stick axis maximum (from `Joystick.h`). -/
def STICK_MAX : Nat := 255

/-- Modelled from the spec: neutral directional-pad value (from `Joystick.h`). -/
def HAT_CENTER : Nat := 8

/-- Modelled from the spec: button bitmask values (from `Joystick.h`).
Only the bits used by the step tables of `Joystick.c` are needed. -/
def SWITCH_B : Nat := 2

def SWITCH_A : Nat := 4

def SWITCH_X : Nat := 8

def SWITCH_L : Nat := 16

def SWITCH_R : Nat := 32

def SWITCH_PLUS : Nat := 512

/-- Constant `BUTTON_DURATION = 10` (Joystick.c line 153). -/
def BUTTON_DURATION : Nat := 10

/-- Table `SyncController` of 8 steps (Joystick.c lines 162-171). -/
def SyncController : List Step := [
  ⟨0, STICK_CENTER, STICK_CENTER, 75⟩,
  ⟨SWITCH_L ||| SWITCH_R, STICK_CENTER, STICK_CENTER, BUTTON_DURATION⟩,
  ⟨0, STICK_CENTER, STICK_CENTER, 75⟩,
  ⟨SWITCH_L ||| SWITCH_R, STICK_CENTER, STICK_CENTER, BUTTON_DURATION⟩,
  ⟨0, STICK_CENTER, STICK_CENTER, 75⟩,
  ⟨SWITCH_A, STICK_CENTER, STICK_CENTER, BUTTON_DURATION⟩,
  ⟨0, STICK_CENTER, STICK_CENTER, 75⟩,
  ⟨SWITCH_A, STICK_CENTER, STICK_CENTER, BUTTON_DURATION⟩]

/-- Table `Recall` of 11 steps (Joystick.c lines 174-188). -/
def Recall : List Step := [
  ⟨0, STICK_CENTER, STICK_CENTER, 75⟩,
  ⟨SWITCH_X, STICK_CENTER, STICK_CENTER, BUTTON_DURATION⟩,
  ⟨0, STICK_CENTER, STICK_CENTER, 75⟩,
  ⟨SWITCH_A, STICK_CENTER, STICK_CENTER, BUTTON_DURATION⟩,
  ⟨0, STICK_CENTER, STICK_CENTER, 300⟩,
  ⟨0, 170, STICK_CENTER, 25⟩,
  ⟨0, STICK_CENTER, STICK_CENTER, 75⟩,
  ⟨SWITCH_A, STICK_CENTER, STICK_CENTER, BUTTON_DURATION⟩,
  ⟨0, STICK_CENTER, STICK_CENTER, 75⟩,
  ⟨SWITCH_A, STICK_CENTER, STICK_CENTER, BUTTON_DURATION⟩,
  ⟨0, STICK_CENTER, STICK_CENTER, 300⟩]

/-- Table `BikeBig` of 2 steps (Joystick.c lines 190-193). -/
def BikeBig : List Step := [
  ⟨0, STICK_MAX, STICK_CENTER, 75⟩,
  ⟨SWITCH_B, STICK_MAX, STICK_CENTER, BUTTON_DURATION⟩]

/-- Table `Bike` of 1 step (Joystick.c lines 195-197); declared in the source but
not referenced by `GetNextReport`. -/
def Bike : List Step := [⟨0, STICK_MAX, STICK_CENTER, 100⟩]

/-- Table `BreakEgg` of 2 steps (Joystick.c lines 199-202); declared in the source
but not referenced by `GetNextReport`. -/
def BreakEgg : List Step := [
  ⟨0, STICK_CENTER, STICK_CENTER, 75⟩,
  ⟨SWITCH_B, STICK_CENTER, STICK_CENTER, BUTTON_DURATION⟩]

/-- Table `GetEgg` of 22 steps (Joystick.c lines 209-236).  The inner menu-scroll
loop runs over indices 13 and 14 (`loop_start:13`, `loop_end:15`). -/
def GetEgg : List Step := [
  ⟨0, STICK_CENTER, STICK_CENTER, 300⟩,
  ⟨SWITCH_PLUS, STICK_CENTER, STICK_CENTER, BUTTON_DURATION⟩,
  ⟨0, STICK_MIN, STICK_MIN, 300⟩,
  ⟨SWITCH_A, STICK_CENTER, STICK_CENTER, BUTTON_DURATION⟩,
  ⟨0, STICK_CENTER, STICK_CENTER, 75⟩,
  ⟨SWITCH_A, STICK_CENTER, STICK_CENTER, BUTTON_DURATION⟩,
  ⟨0, STICK_CENTER, STICK_CENTER, 600⟩,
  ⟨SWITCH_B, STICK_CENTER, STICK_CENTER, BUTTON_DURATION⟩,
  ⟨0, STICK_CENTER, STICK_CENTER, 200⟩,
  ⟨SWITCH_A, STICK_CENTER, STICK_CENTER, BUTTON_DURATION⟩,
  ⟨0, STICK_CENTER, STICK_CENTER, 75⟩,
  ⟨SWITCH_B, STICK_CENTER, STICK_CENTER, BUTTON_DURATION⟩,
  ⟨0, STICK_CENTER, STICK_CENTER, 300⟩,
  ⟨0, STICK_CENTER, STICK_MAX, 25⟩,
  ⟨0, STICK_CENTER, STICK_CENTER, 75⟩,
  ⟨SWITCH_A, STICK_CENTER, STICK_CENTER, BUTTON_DURATION⟩,
  ⟨0, STICK_CENTER, STICK_CENTER, 300⟩,
  ⟨SWITCH_A, STICK_CENTER, STICK_CENTER, BUTTON_DURATION⟩,
  ⟨0, STICK_CENTER, STICK_CENTER, 200⟩,
  ⟨SWITCH_A, STICK_CENTER, STICK_CENTER, BUTTON_DURATION⟩,
  ⟨0, STICK_CENTER, STICK_CENTER, 200⟩,
  ⟨SWITCH_PLUS, STICK_CENTER, STICK_CENTER, BUTTON_DURATION⟩]

/-- The mutable globals of `Joystick.c` that the engine reads and writes:
`phase`, `step_num`, `loop_num`, `egg_slot` (lines 238-244), `echoes` and
`last_report` (lines 154-155).  This is the `PlayerState` of the spec. -/
structure ExecState where
  phase : Nat
  step_num : Nat
  loop_num : Nat
  egg_slot : Nat
  echoes : Nat
  last_report : Report
deriving DecidableEq, Repr

/-- Fallback step for the (never exercised under the bounds hypotheses of the claims) out-of-range table read, which is undefined behavior in the C. -/
def defaultStep : Step := ⟨0, 0, 0, 0⟩

/-- The neutral report `GetNextReport` builds first (Joystick.c lines
302-307): zeroed, then all four axes centered and the pad centered. -/
def defaultReport : Report :=
  { Button := 0, HAT := HAT_CENTER, LX := STICK_CENTER, LY := STICK_CENTER,
    RX := STICK_CENTER, RY := STICK_CENTER }

/-- Function `ExecuteStep` (Joystick.c lines 247-258): overlay the current step onto
the report, arm the echo count with the duration of the step, advance the step
cursor, and on reaching the end of the table reset the cursor and advance
the phase. -/
def ExecuteStep (ReportData : Report) (StepData : List Step) (size : Nat)
    (s : ExecState) : Report × ExecState :=
  let st := StepData.getD s.step_num defaultStep
  let ReportData := { ReportData with
    Button := ReportData.Button ||| st.Button, LX := st.LX, LY := st.LY }
  let s := { s with echoes := st.Duration, step_num := s.step_num + 1 }
  if s.step_num ≥ size then
    (ReportData, { s with step_num := 0, phase := s.phase + 1 })
  else
    (ReportData, s)

/-- Function `ExecuteStepLoop` (Joystick.c lines 261-276): like `ExecuteStep`, but on
reaching the end of the table it increments `loop_num` and only advances the
phase (resetting `loop_num`) once `num_its` iterations have completed. -/
def ExecuteStepLoop (ReportData : Report) (StepData : List Step)
    (size num_its : Nat) (s : ExecState) : Report × ExecState :=
  let st := StepData.getD s.step_num defaultStep
  let ReportData := { ReportData with
    Button := ReportData.Button ||| st.Button, LX := st.LX, LY := st.LY }
  let s := { s with echoes := st.Duration, step_num := s.step_num + 1 }
  if s.step_num ≥ size then
    let s := { s with step_num := 0, loop_num := s.loop_num + 1 }
    if s.loop_num ≥ num_its then
      (ReportData, { s with loop_num := 0, phase := s.phase + 1 })
    else
      (ReportData, s)
  else
    (ReportData, s)

/-- Function `ExecuteStepPartialLoop` (Joystick.c lines 280-296): like `ExecuteStep`,
but when the post-increment cursor equals `loop_end` while fewer than
`num_its - 1` jumps have happened, the cursor jumps back to `loop_start`;
reaching the end of the table resets cursor and loop counter and advances
the phase. -/
def ExecuteStepPartialLoop (ReportData : Report) (StepData : List Step)
    (size loop_start loop_end num_its : Nat) (s : ExecState) :
    Report × ExecState :=
  let st := StepData.getD s.step_num defaultStep
  let ReportData := { ReportData with
    Button := ReportData.Button ||| st.Button, LX := st.LX, LY := st.LY }
  let s := { s with echoes := st.Duration, step_num := s.step_num + 1 }
  let s := if s.step_num = loop_end ∧ s.loop_num < num_its - 1 then
    { s with step_num := loop_start, loop_num := s.loop_num + 1 }
  else s
  if s.step_num ≥ size then
    (ReportData, { s with step_num := 0, loop_num := 0, phase := s.phase + 1 })
  else
    (ReportData, s)

/-- Function `GetNextReport` (Joystick.c lines 299-341): build the neutral report;
if an echo is pending, replay `last_report` and decrement the count;
otherwise dispatch on `phase` to the executor bound to the table of that phase,
wrap phase 5 back to phase 1 incrementing `egg_slot` modulo 5, and cache
the produced report. -/
def GetNextReport (s : ExecState) : Report × ExecState :=
  let ReportData := defaultReport
  if s.echoes > 0 then
    (s.last_report, { s with echoes := s.echoes - 1 })
  else
    let rs :=
      if s.phase = 0 then ExecuteStep ReportData SyncController 8 s
      else if s.phase = 1 then
        ExecuteStepPartialLoop ReportData GetEgg 22 13 15 (s.egg_slot + 1) s
      else if s.phase = 2 then ExecuteStep ReportData Recall 11 s
      else if s.phase = 3 then ExecuteStepLoop ReportData BikeBig 2 55 s
      else if s.phase = 4 then ExecuteStep ReportData Recall 11 s
      else (ReportData, s)
    let ReportData := rs.1
    let s := rs.2
    let s := if s.phase = 5 then
      { s with phase := 1, egg_slot := (s.egg_slot + 1) % 5 }
    else s
    (ReportData, { s with last_report := ReportData })

/-- The initial values of the globals: all counters zero (Joystick.c lines
154, 238-244) and `last_report` zero-initialized (C static storage). -/
def initState : ExecState :=
  { phase := 0, step_num := 0, loop_num := 0, egg_slot := 0, echoes := 0,
    last_report := { Button := 0, HAT := 0, LX := 0, LY := 0, RX := 0, RY := 0 } }

/-- State transition of one poll tick. -/
def tick (s : ExecState) : ExecState := (GetNextReport s).2

/-- The engine state after `k` poll ticks from power-on. -/
def stateAt : Nat → ExecState
  | 0 => initState
  | k + 1 => tick (stateAt k)

/-- The report emitted on tick `k + 1`, i.e. by the call made in state
`stateAt k`. -/
def emitAt (k : Nat) : Report := (GetNextReport (stateAt k)).1

/-- Iterated tick: the state after `k` further poll ticks from `s`. -/
def tickN : Nat → ExecState → ExecState
  | 0, s => s
  | k + 1, s => tickN k (tick s)

/-- The engine state 100 ticks after power-on (middle of the fourth
SyncController step). -/
def stateA : ExecState :=
  { phase := 0, step_num := 3, loop_num := 0, egg_slot := 0, echoes := 63,
    last_report := defaultReport }

/-- The engine state 200 ticks after power-on. -/
def stateB : ExecState :=
  { phase := 0, step_num := 5, loop_num := 0, egg_slot := 0, echoes := 50,
    last_report := defaultReport }

/-- The engine state 300 ticks after power-on. -/
def stateC : ExecState :=
  { phase := 0, step_num := 7, loop_num := 0, egg_slot := 0, echoes := 37,
    last_report := defaultReport }

/-- The engine state 338 ticks after power-on: the SyncController phase has
completed (its eight steps occupy 76+11+76+11+76+11+76+11 = 338 calls
counting each duration plus one synthesis call) and the last sync report
(button A) is still echoing. -/
def stateD : ExecState :=
  { phase := 1, step_num := 0, loop_num := 0, egg_slot := 0, echoes := 10,
    last_report := { Button := 4, HAT := 8, LX := 128, LY := 128,
                     RX := 128, RY := 128 } }

/-- A state in the middle of a GetEgg run whose loop counter is not zero:
reading step 21 completes the table, where the two executors disagree. -/
def stateRun21 : ExecState :=
  { phase := 1, step_num := 21, loop_num := 3, egg_slot := 0, echoes := 0,
    last_report := defaultReport }

/-- The most recent tick index `j ≤ k` at which the engine was about to run
an executor (`echoes = 0`), i.e. the tick that synthesized the report being
replayed at `k`. -/
def lastSynth : Nat → Nat
  | 0 => 0
  | k + 1 => if (stateAt (k + 1)).echoes = 0 then k + 1 else lastSynth k

/-- The two secondary axes and the pad of a report are at their neutral
values. -/
def auxNeutral (r : Report) : Prop :=
  r.RX = STICK_CENTER ∧ r.RY = STICK_CENTER ∧ r.HAT = HAT_CENTER

/-- The table the dispatch of `GetNextReport` binds to each phase. -/
def phaseTable : Nat → List Step := fun p =>
  if p = 0 then SyncController
  else if p = 1 then GetEgg
  else if p = 2 then Recall
  else if p = 3 then BikeBig
  else if p = 4 then Recall
  else []

/-- A state whose phase lies outside the dispatch range. -/
def phase9State : ExecState := { initState with phase := 9 }

/-- The state transition of one linear-executor call (report discarded). -/
def linStep (T : List Step) (sz : Nat) (s : ExecState) : ExecState :=
  (ExecuteStep defaultReport T sz s).2

/-- Iterated linear-executor calls. -/
def linIter (T : List Step) (sz : Nat) : Nat → ExecState → ExecState
  | 0, s => s
  | k + 1, s => linIter T sz k (linStep T sz s)

/-- The state transition of one full-loop-executor call (report discarded). -/
def floopStep (T : List Step) (sz n : Nat) (s : ExecState) : ExecState :=
  (ExecuteStepLoop defaultReport T sz n s).2

/-- Iterated full-loop-executor calls. -/
def floopIter (T : List Step) (sz n : Nat) : Nat → ExecState → ExecState
  | 0, s => s
  | k + 1, s => floopIter T sz n k (floopStep T sz n s)

/-- The step indices read by `k` successive full-loop-executor calls. -/
def floopVisits (T : List Step) (sz n : Nat) : Nat → ExecState → List Nat
  | 0, _ => []
  | k + 1, s => s.step_num :: floopVisits T sz n k (floopStep T sz n s)

/-- A fresh cursor in the BikeBig phase. -/
def phase3State : ExecState := { initState with phase := 3 }

/-- The state transition of one partial-loop-executor call (report
discarded). -/
def ploopStep (T : List Step) (sz a b n : Nat) (s : ExecState) : ExecState :=
  (ExecuteStepPartialLoop defaultReport T sz a b n s).2

/-- Iterated partial-loop-executor calls. -/
def ploopIter (T : List Step) (sz a b n : Nat) : Nat → ExecState → ExecState
  | 0, s => s
  | k + 1, s => ploopIter T sz a b n k (ploopStep T sz a b n s)

/-- The step indices read by `k` successive partial-loop-executor calls. -/
def ploopVisits (T : List Step) (sz a b n : Nat) : Nat → ExecState → List Nat
  | 0, _ => []
  | k + 1, s => s.step_num :: ploopVisits T sz a b n k (ploopStep T sz a b n s)

/-- A fresh cursor in the GetEgg phase on the fifth slot (five inner
iterations requested). -/
def eggState : ExecState :=
  { initState with phase := 1, egg_slot := 4 }

/-- The engine state 500 ticks after power-on. -/
def cs5 : ExecState :=
  { phase := 1, step_num := 1, loop_num := 0, egg_slot := 0,
    echoes := 149,
    last_report := { Button := 0, HAT := 8, LX := 128, LY := 128,
                     RX := 128, RY := 128 } }

/-- The engine state 600 ticks after power-on. -/
def cs6 : ExecState :=
  { phase := 1, step_num := 1, loop_num := 0, egg_slot := 0,
    echoes := 49,
    last_report := { Button := 0, HAT := 8, LX := 128, LY := 128,
                     RX := 128, RY := 128 } }

/-- The engine state 700 ticks after power-on. -/
def cs7 : ExecState :=
  { phase := 1, step_num := 3, loop_num := 0, egg_slot := 0,
    echoes := 261,
    last_report := { Button := 0, HAT := 8, LX := 0, LY := 0,
                     RX := 128, RY := 128 } }

/-- The engine state 800 ticks after power-on. -/
def cs8 : ExecState :=
  { phase := 1, step_num := 3, loop_num := 0, egg_slot := 0,
    echoes := 161,
    last_report := { Button := 0, HAT := 8, LX := 0, LY := 0,
                     RX := 128, RY := 128 } }

/-- The engine state 900 ticks after power-on. -/
def cs9 : ExecState :=
  { phase := 1, step_num := 3, loop_num := 0, egg_slot := 0,
    echoes := 61,
    last_report := { Button := 0, HAT := 8, LX := 0, LY := 0,
                     RX := 128, RY := 128 } }

/-- The engine state 1000 ticks after power-on. -/
def cs10 : ExecState :=
  { phase := 1, step_num := 5, loop_num := 0, egg_slot := 0,
    echoes := 48,
    last_report := { Button := 0, HAT := 8, LX := 128, LY := 128,
                     RX := 128, RY := 128 } }

/-- The engine state 1100 ticks after power-on. -/
def cs11 : ExecState :=
  { phase := 1, step_num := 7, loop_num := 0, egg_slot := 0,
    echoes := 560,
    last_report := { Button := 0, HAT := 8, LX := 128, LY := 128,
                     RX := 128, RY := 128 } }

/-- The engine state 1200 ticks after power-on. -/
def cs12 : ExecState :=
  { phase := 1, step_num := 7, loop_num := 0, egg_slot := 0,
    echoes := 460,
    last_report := { Button := 0, HAT := 8, LX := 128, LY := 128,
                     RX := 128, RY := 128 } }

/-- The engine state 1300 ticks after power-on. -/
def cs13 : ExecState :=
  { phase := 1, step_num := 7, loop_num := 0, egg_slot := 0,
    echoes := 360,
    last_report := { Button := 0, HAT := 8, LX := 128, LY := 128,
                     RX := 128, RY := 128 } }

/-- The engine state 1400 ticks after power-on. -/
def cs14 : ExecState :=
  { phase := 1, step_num := 7, loop_num := 0, egg_slot := 0,
    echoes := 260,
    last_report := { Button := 0, HAT := 8, LX := 128, LY := 128,
                     RX := 128, RY := 128 } }

/-- The engine state 1500 ticks after power-on. -/
def cs15 : ExecState :=
  { phase := 1, step_num := 7, loop_num := 0, egg_slot := 0,
    echoes := 160,
    last_report := { Button := 0, HAT := 8, LX := 128, LY := 128,
                     RX := 128, RY := 128 } }

/-- The engine state 1600 ticks after power-on. -/
def cs16 : ExecState :=
  { phase := 1, step_num := 7, loop_num := 0, egg_slot := 0,
    echoes := 60,
    last_report := { Button := 0, HAT := 8, LX := 128, LY := 128,
                     RX := 128, RY := 128 } }

/-- The engine state 1700 ticks after power-on. -/
def cs17 : ExecState :=
  { phase := 1, step_num := 9, loop_num := 0, egg_slot := 0,
    echoes := 172,
    last_report := { Button := 0, HAT := 8, LX := 128, LY := 128,
                     RX := 128, RY := 128 } }

/-- The engine state 1800 ticks after power-on. -/
def cs18 : ExecState :=
  { phase := 1, step_num := 9, loop_num := 0, egg_slot := 0,
    echoes := 72,
    last_report := { Button := 0, HAT := 8, LX := 128, LY := 128,
                     RX := 128, RY := 128 } }

/-- The engine state 1900 ticks after power-on. -/
def cs19 : ExecState :=
  { phase := 1, step_num := 11, loop_num := 0, egg_slot := 0,
    echoes := 59,
    last_report := { Button := 0, HAT := 8, LX := 128, LY := 128,
                     RX := 128, RY := 128 } }

/-- The engine state 2000 ticks after power-on. -/
def cs20 : ExecState :=
  { phase := 1, step_num := 13, loop_num := 0, egg_slot := 0,
    echoes := 271,
    last_report := { Button := 0, HAT := 8, LX := 128, LY := 128,
                     RX := 128, RY := 128 } }

/-- The engine state 2100 ticks after power-on. -/
def cs21 : ExecState :=
  { phase := 1, step_num := 13, loop_num := 0, egg_slot := 0,
    echoes := 171,
    last_report := { Button := 0, HAT := 8, LX := 128, LY := 128,
                     RX := 128, RY := 128 } }

/-- The engine state 2200 ticks after power-on. -/
def cs22 : ExecState :=
  { phase := 1, step_num := 13, loop_num := 0, egg_slot := 0,
    echoes := 71,
    last_report := { Button := 0, HAT := 8, LX := 128, LY := 128,
                     RX := 128, RY := 128 } }

/-- The engine state 2300 ticks after power-on. -/
def cs23 : ExecState :=
  { phase := 1, step_num := 15, loop_num := 0, egg_slot := 0,
    echoes := 73,
    last_report := { Button := 0, HAT := 8, LX := 128, LY := 128,
                     RX := 128, RY := 128 } }

/-- The engine state 2400 ticks after power-on. -/
def cs24 : ExecState :=
  { phase := 1, step_num := 17, loop_num := 0, egg_slot := 0,
    echoes := 285,
    last_report := { Button := 0, HAT := 8, LX := 128, LY := 128,
                     RX := 128, RY := 128 } }

/-- The engine state 2500 ticks after power-on. -/
def cs25 : ExecState :=
  { phase := 1, step_num := 17, loop_num := 0, egg_slot := 0,
    echoes := 185,
    last_report := { Button := 0, HAT := 8, LX := 128, LY := 128,
                     RX := 128, RY := 128 } }

/-- The engine state 2600 ticks after power-on. -/
def cs26 : ExecState :=
  { phase := 1, step_num := 17, loop_num := 0, egg_slot := 0,
    echoes := 85,
    last_report := { Button := 0, HAT := 8, LX := 128, LY := 128,
                     RX := 128, RY := 128 } }

/-- The engine state 2700 ticks after power-on. -/
def cs27 : ExecState :=
  { phase := 1, step_num := 19, loop_num := 0, egg_slot := 0,
    echoes := 197,
    last_report := { Button := 0, HAT := 8, LX := 128, LY := 128,
                     RX := 128, RY := 128 } }

/-- The engine state 2800 ticks after power-on. -/
def cs28 : ExecState :=
  { phase := 1, step_num := 19, loop_num := 0, egg_slot := 0,
    echoes := 97,
    last_report := { Button := 0, HAT := 8, LX := 128, LY := 128,
                     RX := 128, RY := 128 } }

/-- The engine state 2900 ticks after power-on. -/
def cs29 : ExecState :=
  { phase := 1, step_num := 20, loop_num := 0, egg_slot := 0,
    echoes := 8,
    last_report := { Button := 4, HAT := 8, LX := 128, LY := 128,
                     RX := 128, RY := 128 } }

/-- The engine state 3000 ticks after power-on. -/
def cs30 : ExecState :=
  { phase := 1, step_num := 21, loop_num := 0, egg_slot := 0,
    echoes := 109,
    last_report := { Button := 0, HAT := 8, LX := 128, LY := 128,
                     RX := 128, RY := 128 } }

/-- The engine state 3100 ticks after power-on. -/
def cs31 : ExecState :=
  { phase := 1, step_num := 21, loop_num := 0, egg_slot := 0,
    echoes := 9,
    last_report := { Button := 0, HAT := 8, LX := 128, LY := 128,
                     RX := 128, RY := 128 } }

/-- The engine state 3200 ticks after power-on. -/
def cs32 : ExecState :=
  { phase := 2, step_num := 2, loop_num := 0, egg_slot := 0,
    echoes := 7,
    last_report := { Button := 8, HAT := 8, LX := 128, LY := 128,
                     RX := 128, RY := 128 } }

/-- The engine state 3300 ticks after power-on. -/
def cs33 : ExecState :=
  { phase := 2, step_num := 5, loop_num := 0, egg_slot := 0,
    echoes := 295,
    last_report := { Button := 0, HAT := 8, LX := 128, LY := 128,
                     RX := 128, RY := 128 } }

/-- The engine state 3400 ticks after power-on. -/
def cs34 : ExecState :=
  { phase := 2, step_num := 5, loop_num := 0, egg_slot := 0,
    echoes := 195,
    last_report := { Button := 0, HAT := 8, LX := 128, LY := 128,
                     RX := 128, RY := 128 } }

/-- The engine state 3500 ticks after power-on. -/
def cs35 : ExecState :=
  { phase := 2, step_num := 5, loop_num := 0, egg_slot := 0,
    echoes := 95,
    last_report := { Button := 0, HAT := 8, LX := 128, LY := 128,
                     RX := 128, RY := 128 } }

/-- The engine state 3600 ticks after power-on. -/
def cs36 : ExecState :=
  { phase := 2, step_num := 6, loop_num := 0, egg_slot := 0,
    echoes := 21,
    last_report := { Button := 0, HAT := 8, LX := 170, LY := 128,
                     RX := 128, RY := 128 } }

/-- The engine state 3700 ticks after power-on. -/
def cs37 : ExecState :=
  { phase := 2, step_num := 8, loop_num := 0, egg_slot := 0,
    echoes := 8,
    last_report := { Button := 4, HAT := 8, LX := 128, LY := 128,
                     RX := 128, RY := 128 } }

/-- The engine state 3800 ticks after power-on. -/
def cs38 : ExecState :=
  { phase := 3, step_num := 0, loop_num := 0, egg_slot := 0,
    echoes := 296,
    last_report := { Button := 0, HAT := 8, LX := 128, LY := 128,
                     RX := 128, RY := 128 } }

/-- The engine state 3900 ticks after power-on. -/
def cs39 : ExecState :=
  { phase := 3, step_num := 0, loop_num := 0, egg_slot := 0,
    echoes := 196,
    last_report := { Button := 0, HAT := 8, LX := 128, LY := 128,
                     RX := 128, RY := 128 } }

/-- The engine state 4000 ticks after power-on. -/
def cs40 : ExecState :=
  { phase := 3, step_num := 0, loop_num := 0, egg_slot := 0,
    echoes := 96,
    last_report := { Button := 0, HAT := 8, LX := 128, LY := 128,
                     RX := 128, RY := 128 } }

/-- The engine state 4100 ticks after power-on. -/
def cs41 : ExecState :=
  { phase := 3, step_num := 1, loop_num := 0, egg_slot := 0,
    echoes := 72,
    last_report := { Button := 0, HAT := 8, LX := 255, LY := 128,
                     RX := 128, RY := 128 } }

/-- How many times the repeat-point phase (phase 4) has completed in the
first `k` ticks. -/
def wrapCount : Nat → Nat
  | 0 => 0
  | k + 1 => wrapCount k
      + (if (stateAt k).phase = 4 ∧ (stateAt (k + 1)).phase = 1 then 1 else 0)

/-- The length of the table the dispatch binds to each phase (1 for the
phases with no table, where the step cursor is never read). -/
def phaseLen : Nat → Nat := fun p =>
  if p = 0 then 8
  else if p = 1 then 22
  else if p = 2 then 11
  else if p = 3 then 2
  else if p = 4 then 11
  else 1

/-- Inductive invariant of the engine state: phase in range, step cursor
inside the active table, slot counter below 5, loop counter below the
target repetition count of the active mode and zero in the non-looping
phases. -/
def C8Inv (s : ExecState) : Prop :=
  s.phase ≤ 4 ∧ s.step_num < phaseLen s.phase ∧ s.egg_slot < 5
  ∧ (s.phase = 1 → s.loop_num ≤ s.egg_slot)
  ∧ (s.phase = 3 → s.loop_num < 55)
  ∧ (s.phase = 0 ∨ s.phase = 2 ∨ s.phase = 4 → s.loop_num = 0)

theorem tickN_chunkA : tickN 100 initState = stateA := by decide

theorem tickN_chunkB : tickN 100 stateA = stateB := by decide

theorem tickN_chunkC : tickN 100 stateB = stateC := by decide

theorem tickN_chunkD : tickN 38 stateC = stateD := by decide

theorem tickN_add (a b : Nat) (s : ExecState) :
    tickN (a + b) s = tickN b (tickN a s) := by
  induction a generalizing s with
  | zero => simp [tickN]
  | succ a ih =>
    have h : a + 1 + b = (a + b) + 1 := by omega
    rw [h, tickN, tickN, ih]

theorem tickN_tick (k : Nat) (s : ExecState) :
    tick (tickN k s) = tickN k (tick s) := by
  induction k generalizing s with
  | zero => rfl
  | succ k ih => rw [tickN, tickN, ih]

theorem stateAt_eq_tickN (k : Nat) : stateAt k = tickN k initState := by
  induction k with
  | zero => rfl
  | succ k ih => rw [stateAt, ih, tickN_tick]; rfl

theorem stateAt_338 : stateAt 338 = stateD := by
  rw [stateAt_eq_tickN]
  have h : (338 : Nat) = 100 + (100 + (100 + 38)) := rfl
  rw [h, tickN_add, tickN_chunkA, tickN_add, tickN_chunkB, tickN_add,
    tickN_chunkC, tickN_chunkD]

/-- The echo branch of `GetNextReport` (Joystick.c lines 310-315): while
echoes remain, the cached report is replayed verbatim, the echo count drops
by one, and nothing else changes. -/
theorem GetNextReport_echo (s : ExecState) (h : 0 < s.echoes) :
    GetNextReport s = (s.last_report, { s with echoes := s.echoes - 1 }) := by
  unfold GetNextReport
  rw [if_pos h]

/-- The report part of `ExecuteStep`: the step fields are overlaid onto the
incoming report (buttons by bitwise or). -/
theorem ExecuteStep_fst (r : Report) (T : List Step) (sz : Nat)
    (s : ExecState) :
    (ExecuteStep r T sz s).1 =
      { r with
        Button := r.Button ||| (T.getD s.step_num defaultStep).Button,
        LX := (T.getD s.step_num defaultStep).LX,
        LY := (T.getD s.step_num defaultStep).LY } := by
  unfold ExecuteStep
  dsimp only
  split <;> rfl

/-- The state part of `ExecuteStep` as one explicit conditional. -/
theorem ExecuteStep_snd (r : Report) (T : List Step) (sz : Nat)
    (s : ExecState) :
    (ExecuteStep r T sz s).2 =
      if s.step_num + 1 ≥ sz then
        { s with
          echoes := (T.getD s.step_num defaultStep).Duration,
          step_num := 0, phase := s.phase + 1 }
      else
        { s with
          echoes := (T.getD s.step_num defaultStep).Duration,
          step_num := s.step_num + 1 } := by
  unfold ExecuteStep
  dsimp only
  split <;> rfl

/-- The report part of `ExecuteStepLoop`. -/
theorem ExecuteStepLoop_fst (r : Report) (T : List Step) (sz n : Nat)
    (s : ExecState) :
    (ExecuteStepLoop r T sz n s).1 =
      { r with
        Button := r.Button ||| (T.getD s.step_num defaultStep).Button,
        LX := (T.getD s.step_num defaultStep).LX,
        LY := (T.getD s.step_num defaultStep).LY } := by
  unfold ExecuteStepLoop
  dsimp only
  split <;> (try split) <;> rfl

/-- The state part of `ExecuteStepLoop` as one explicit conditional. -/
theorem ExecuteStepLoop_snd (r : Report) (T : List Step) (sz n : Nat)
    (s : ExecState) :
    (ExecuteStepLoop r T sz n s).2 =
      if s.step_num + 1 ≥ sz then
        (if s.loop_num + 1 ≥ n then
          { s with
            echoes := (T.getD s.step_num defaultStep).Duration,
            step_num := 0, loop_num := 0, phase := s.phase + 1 }
        else
          { s with
            echoes := (T.getD s.step_num defaultStep).Duration,
            step_num := 0, loop_num := s.loop_num + 1 })
      else
        { s with
          echoes := (T.getD s.step_num defaultStep).Duration,
          step_num := s.step_num + 1 } := by
  unfold ExecuteStepLoop
  dsimp only
  split <;> (try split) <;> rfl

/-- The report part of `ExecuteStepPartialLoop`. -/
theorem ExecuteStepPartialLoop_fst (r : Report) (T : List Step)
    (sz a b n : Nat) (s : ExecState) :
    (ExecuteStepPartialLoop r T sz a b n s).1 =
      { r with
        Button := r.Button ||| (T.getD s.step_num defaultStep).Button,
        LX := (T.getD s.step_num defaultStep).LX,
        LY := (T.getD s.step_num defaultStep).LY } := by
  unfold ExecuteStepPartialLoop
  dsimp only
  split <;> (try split) <;> rfl

/-- The state part of `ExecuteStepPartialLoop` as one explicit conditional:
first the jump-back check on the post-increment cursor, then the
end-of-table check. -/
theorem ExecuteStepPartialLoop_snd (r : Report) (T : List Step)
    (sz a b n : Nat) (s : ExecState) :
    (ExecuteStepPartialLoop r T sz a b n s).2 =
      if s.step_num + 1 = b ∧ s.loop_num < n - 1 then
        (if a ≥ sz then
          { s with
            echoes := (T.getD s.step_num defaultStep).Duration,
            step_num := 0, loop_num := 0, phase := s.phase + 1 }
        else
          { s with
            echoes := (T.getD s.step_num defaultStep).Duration,
            step_num := a, loop_num := s.loop_num + 1 })
      else
        (if s.step_num + 1 ≥ sz then
          { s with
            echoes := (T.getD s.step_num defaultStep).Duration,
            step_num := 0, loop_num := 0, phase := s.phase + 1 }
        else
          { s with
            echoes := (T.getD s.step_num defaultStep).Duration,
            step_num := s.step_num + 1 }) := by
  unfold ExecuteStepPartialLoop
  dsimp only
  split <;> split <;> rfl

/-- Dispatch on phase 0 (Joystick.c lines 318-319): the SyncController
table runs under the linear executor, and the produced report is cached. -/
theorem tick_phase0 (s : ExecState) (h0 : s.echoes = 0) (h : s.phase = 0) :
    GetNextReport s = ((ExecuteStep defaultReport SyncController 8 s).1,
      { (ExecuteStep defaultReport SyncController 8 s).2 with
        last_report := (ExecuteStep defaultReport SyncController 8 s).1 }) := by
  have hp : ¬ (ExecuteStep defaultReport SyncController 8 s).2.phase = 5 := by
    rw [ExecuteStep_snd]; split <;> dsimp only <;> omega
  unfold GetNextReport
  rw [if_neg (by omega)]
  dsimp only
  rw [if_pos h, if_neg hp]

/-- Dispatch on phase 1 (Joystick.c line 321): the GetEgg table runs under
the partial-loop executor with bounds 13 and 15 and `egg_slot + 1`
iterations. -/
theorem tick_phase1 (s : ExecState) (h0 : s.echoes = 0) (h : s.phase = 1) :
    GetNextReport s =
      ((ExecuteStepPartialLoop defaultReport GetEgg 22 13 15 (s.egg_slot + 1) s).1,
      { (ExecuteStepPartialLoop defaultReport GetEgg 22 13 15 (s.egg_slot + 1) s).2 with
        last_report :=
          (ExecuteStepPartialLoop defaultReport GetEgg 22 13 15 (s.egg_slot + 1) s).1 }) := by
  have hp : ¬ (ExecuteStepPartialLoop defaultReport GetEgg 22 13 15
      (s.egg_slot + 1) s).2.phase = 5 := by
    rw [ExecuteStepPartialLoop_snd]
    split <;> split <;> dsimp only <;> omega
  unfold GetNextReport
  rw [if_neg (by omega)]
  dsimp only
  rw [if_neg (by omega), if_pos h, if_neg hp]

/-- Dispatch on phase 2 (Joystick.c line 327): the Recall table runs under
the linear executor. -/
theorem tick_phase2 (s : ExecState) (h0 : s.echoes = 0) (h : s.phase = 2) :
    GetNextReport s = ((ExecuteStep defaultReport Recall 11 s).1,
      { (ExecuteStep defaultReport Recall 11 s).2 with
        last_report := (ExecuteStep defaultReport Recall 11 s).1 }) := by
  have hp : ¬ (ExecuteStep defaultReport Recall 11 s).2.phase = 5 := by
    rw [ExecuteStep_snd]; split <;> dsimp only <;> omega
  unfold GetNextReport
  rw [if_neg (by omega)]
  dsimp only
  rw [if_neg (by omega), if_neg (by omega), if_pos h, if_neg hp]

/-- Dispatch on phase 3 (Joystick.c line 329): the BikeBig table runs under
the full-loop executor with 55 iterations. -/
theorem tick_phase3 (s : ExecState) (h0 : s.echoes = 0) (h : s.phase = 3) :
    GetNextReport s = ((ExecuteStepLoop defaultReport BikeBig 2 55 s).1,
      { (ExecuteStepLoop defaultReport BikeBig 2 55 s).2 with
        last_report := (ExecuteStepLoop defaultReport BikeBig 2 55 s).1 }) := by
  have hp : ¬ (ExecuteStepLoop defaultReport BikeBig 2 55 s).2.phase = 5 := by
    rw [ExecuteStepLoop_snd]
    split <;> (try split) <;> dsimp only <;> omega
  unfold GetNextReport
  rw [if_neg (by omega)]
  dsimp only
  rw [if_neg (by omega), if_neg (by omega), if_neg (by omega), if_pos h,
    if_neg hp]

/-- Dispatch on phase 4 (Joystick.c line 331): the Recall table runs under
the linear executor; if that completes (phase briefly reads 5), the wrap
logic of lines 334-337 returns to phase 1 and advances the egg slot
counter modulo 5. -/
theorem tick_phase4 (s : ExecState) (h0 : s.echoes = 0) (h : s.phase = 4) :
    GetNextReport s = ((ExecuteStep defaultReport Recall 11 s).1,
      { (if (ExecuteStep defaultReport Recall 11 s).2.phase = 5 then
          { (ExecuteStep defaultReport Recall 11 s).2 with
            phase := 1,
            egg_slot := ((ExecuteStep defaultReport Recall 11 s).2.egg_slot + 1) % 5 }
        else (ExecuteStep defaultReport Recall 11 s).2) with
        last_report := (ExecuteStep defaultReport Recall 11 s).1 }) := by
  unfold GetNextReport
  rw [if_neg (by omega)]
  dsimp only
  rw [if_neg (by omega), if_neg (by omega), if_neg (by omega),
    if_neg (by omega), if_pos h]

/-- Dispatch on a phase above 4 with no echo pending: no executor runs, so
the neutral report is emitted. -/
theorem tick_phaseBig (s : ExecState) (h0 : s.echoes = 0)
    (h : ¬ s.phase ≤ 4) :
    (GetNextReport s).1 = defaultReport := by
  unfold GetNextReport
  rw [if_neg (by omega)]
  dsimp only
  rw [if_neg (by omega), if_neg (by omega), if_neg (by omega),
    if_neg (by omega), if_neg (by omega)]

/-- Iterated replay: while echoes last, ticking only counts the echo field
down and leaves every other component of the state unchanged. -/
theorem tickN_echo (s : ExecState) (k : Nat) (h : k ≤ s.echoes) :
    tickN k s = { s with echoes := s.echoes - k } := by
  induction k generalizing s with
  | zero => rfl
  | succ k ih =>
    have h1 : 0 < s.echoes := by omega
    have ht : tick s = { s with echoes := s.echoes - 1 } := by
      unfold tick
      rw [GetNextReport_echo s h1]
    rw [tickN, ht, ih]
    · cases s
      dsimp only
      congr 1
      omega
    · dsimp only
      omega

/-- A tick that runs an executor caches the produced report in
`last_report`. -/
theorem tick_caches (s : ExecState) (h0 : s.echoes = 0) :
    (tick s).last_report = (GetNextReport s).1 := by
  unfold tick GetNextReport
  rw [if_neg (by omega)]

/-- C7: on every tick with a positive echo count, `GetNextReport` copies
the cached `last_report` verbatim into the output and decrements the echo
count, and nothing else changes: no executor runs, and phase, step index,
loop count, slot counter and the cached report itself are untouched. -/
theorem claim_C7 (s : ExecState) (h : 0 < s.echoes) :
    GetNextReport s = (s.last_report, { s with echoes := s.echoes - 1 }) :=
  GetNextReport_echo s h

theorem claim_C7_witness :
    0 < (stateAt 1).echoes ∧
      GetNextReport (stateAt 1) =
        ((stateAt 1).last_report,
          { stateAt 1 with echoes := (stateAt 1).echoes - 1 }) :=
  ⟨by decide, claim_C7 (stateAt 1) (by decide)⟩

/-- C6 (amended): with `num_its = 1` and a zero loop counter — the state in
which every phase starts — the partial-loop executor coincides with the
linear executor on every sequence, bound pair and cursor position. -/
theorem claim_C6 (r : Report) (T : List Step) (sz a b : Nat) (s : ExecState)
    (h : s.loop_num = 0) :
    ExecuteStepPartialLoop r T sz a b 1 s = ExecuteStep r T sz s := by
  have h1 : ¬ (s.step_num + 1 = b ∧ s.loop_num < 1 - 1) := by omega
  rw [Prod.ext_iff]
  constructor
  · rw [ExecuteStepPartialLoop_fst, ExecuteStep_fst]
  · rw [ExecuteStepPartialLoop_snd, ExecuteStep_snd, if_neg h1]
    split <;> simp [h]

/-- C6 counterexample: at a completing call with loop counter 3, the
partial-loop executor with `num_its = 1` resets the loop counter to zero
while the linear executor leaves it at 3, so the two post-states differ:
the equivalence does not hold for every starting loop count. -/
theorem claim_C6_counterexample :
    (ExecuteStepPartialLoop defaultReport GetEgg 22 13 15 1 stateRun21).2.loop_num = 0
    ∧ (ExecuteStep defaultReport GetEgg 22 stateRun21).2.loop_num = 3
    ∧ ¬ ExecuteStepPartialLoop defaultReport GetEgg 22 13 15 1 stateRun21
        = ExecuteStep defaultReport GetEgg 22 stateRun21 := by decide

/-- C1 counterexample: the first SyncController entry has duration 75, yet
the 76th call (index 75) still replays its report — identical to the very
first — and after 76 calls the cursor has still consumed only that entry
(step index 1, echo drained); only call 77 synthesizes the second entry
(buttons L and R).  So the entry occupies 76 = 75 + 1 calls, not 75. -/
theorem claim_C1_counterexample :
    (SyncController.getD 0 defaultStep).Duration = 75
    ∧ (stateAt 75).echoes = 1
    ∧ emitAt 75 = emitAt 0
    ∧ (stateAt 76).step_num = 1 ∧ (stateAt 76).phase = 0
    ∧ (stateAt 76).echoes = 0
    ∧ (emitAt 76).Button = SWITCH_L ||| SWITCH_R := by decide

/-- C1 (amended): a step of duration `d` occupies `d + 1` consecutive
calls: the synthesis call plus `d` replay calls, all emitting the same
report; only after those does the echo count reach zero so that the next
call fetches the next step.  Stated for every state `s` about to run an
executor (`echoes = 0`) and every replay position `k < d` where
`d = (tick s).echoes` is the fetched duration. -/
theorem claim_C1 (s : ExecState) (k : Nat) (h0 : s.echoes = 0)
    (hk : k < (tick s).echoes) :
    tickN k (tick s) = { tick s with echoes := (tick s).echoes - k }
    ∧ (GetNextReport (tickN k (tick s))).1 = (GetNextReport s).1
    ∧ (tick s).last_report = (GetNextReport s).1
    ∧ tickN (tick s).echoes (tick s) = { tick s with echoes := 0 } := by
  have hlast : (tick s).last_report = (GetNextReport s).1 := tick_caches s h0
  have h1 := tickN_echo (tick s) k (Nat.le_of_lt hk)
  refine ⟨h1, ?_, hlast, ?_⟩
  · rw [h1, GetNextReport_echo _ (by dsimp only; omega)]
    dsimp only
    exact hlast
  · have h2 := tickN_echo (tick s) (tick s).echoes (Nat.le_refl _)
    rw [h2]
    congr 1
    omega

theorem claim_C1_witness :
    initState.echoes = 0 ∧ 5 < (tick initState).echoes
    ∧ (tickN 5 (tick initState)
        = { tick initState with echoes := (tick initState).echoes - 5 }
      ∧ (GetNextReport (tickN 5 (tick initState))).1 = (GetNextReport initState).1
      ∧ (tick initState).last_report = (GetNextReport initState).1
      ∧ tickN (tick initState).echoes (tick initState)
          = { tick initState with echoes := 0 }) :=
  ⟨by decide, by decide, claim_C1 initState 5 (by decide) (by decide)⟩

theorem lastSynth_echoes (k : Nat) : (stateAt (lastSynth k)).echoes = 0 := by
  induction k with
  | zero => rfl
  | succ k ih =>
    rw [lastSynth]
    split
    · assumption
    · exact ih

theorem lastSynth_le (k : Nat) : lastSynth k ≤ k := by
  induction k with
  | zero => exact Nat.le_refl 0
  | succ k ih =>
    rw [lastSynth]
    split
    · exact Nat.le_refl _
    · omega

/-- The cached report always equals the output of the most recent
synthesizing tick. -/
theorem last_report_synth (k : Nat) :
    (stateAt (k + 1)).last_report = (GetNextReport (stateAt (lastSynth k))).1 := by
  induction k with
  | zero => exact tick_caches initState rfl
  | succ k ih =>
    by_cases h : (stateAt (k + 1)).echoes = 0
    · have : lastSynth (k + 1) = k + 1 := by rw [lastSynth, if_pos h]
      rw [this]
      exact tick_caches (stateAt (k + 1)) h
    · have hl : lastSynth (k + 1) = lastSynth k := by rw [lastSynth, if_neg h]
      have ht : (stateAt (k + 2)).last_report = (stateAt (k + 1)).last_report := by
        have := GetNextReport_echo (stateAt (k + 1)) (by omega)
        show (tick (stateAt (k + 1))).last_report = _
        unfold tick
        rw [this]
      rw [hl, ht, ih]

/-- C10: the echo counter starts at zero, so the very first call runs the
phase-0 executor on step 0 of SyncController rather than replaying the
uninitialized cache (whose zeroed content is in fact never emitted); and
every replayed report equals the report synthesized and cached by the most
recent executor tick, which is strictly earlier. -/
theorem claim_C10 (k : Nat) (hk : 0 < (stateAt k).echoes) :
    initState.echoes = 0
    ∧ (GetNextReport initState).1 = (ExecuteStep defaultReport SyncController 8 initState).1
    ∧ (GetNextReport initState).1 ≠ initState.last_report
    ∧ lastSynth k < k
    ∧ (stateAt (lastSynth k)).echoes = 0
    ∧ (GetNextReport (stateAt k)).1 = (GetNextReport (stateAt (lastSynth k))).1 := by
  match k, hk with
  | m + 1, hk =>
    have hne : ¬ (stateAt (m + 1)).echoes = 0 := by omega
    have hl : lastSynth (m + 1) = lastSynth m := by rw [lastSynth, if_neg hne]
    refine ⟨rfl, by decide, by decide, ?_, lastSynth_echoes _, ?_⟩
    · have := lastSynth_le m
      omega
    · rw [GetNextReport_echo _ hk]
      dsimp only
      rw [hl]
      exact last_report_synth m

theorem claim_C10_witness :
    0 < (stateAt 1).echoes
    ∧ (initState.echoes = 0
      ∧ (GetNextReport initState).1 = (ExecuteStep defaultReport SyncController 8 initState).1
      ∧ (GetNextReport initState).1 ≠ initState.last_report
      ∧ lastSynth 1 < 1
      ∧ (stateAt (lastSynth 1)).echoes = 0
      ∧ (GetNextReport (stateAt 1)).1 = (GetNextReport (stateAt (lastSynth 1))).1) :=
  ⟨by decide, claim_C10 1 (by decide)⟩

/-- One tick never drives the secondary axes or the pad: if the cache is
neutral in those fields (or no replay happens), so are the emitted report
and the new cache. -/
theorem emit_aux (s : ExecState)
    (h : 0 < s.echoes → auxNeutral s.last_report) :
    auxNeutral (GetNextReport s).1 ∧ auxNeutral ((tick s).last_report) := by
  by_cases h0 : s.echoes = 0
  · have hc : (tick s).last_report = (GetNextReport s).1 := tick_caches s h0
    rw [hc, and_self]
    by_cases hp : s.phase ≤ 4
    · have hcases : s.phase = 0 ∨ s.phase = 1 ∨ s.phase = 2 ∨ s.phase = 3
          ∨ s.phase = 4 := by omega
      rcases hcases with h1 | h1 | h1 | h1 | h1
      · rw [tick_phase0 s h0 h1]
        dsimp only
        rw [ExecuteStep_fst]
        exact ⟨rfl, rfl, rfl⟩
      · rw [tick_phase1 s h0 h1]
        dsimp only
        rw [ExecuteStepPartialLoop_fst]
        exact ⟨rfl, rfl, rfl⟩
      · rw [tick_phase2 s h0 h1]
        dsimp only
        rw [ExecuteStep_fst]
        exact ⟨rfl, rfl, rfl⟩
      · rw [tick_phase3 s h0 h1]
        dsimp only
        rw [ExecuteStepLoop_fst]
        exact ⟨rfl, rfl, rfl⟩
      · rw [tick_phase4 s h0 h1]
        dsimp only
        rw [ExecuteStep_fst]
        exact ⟨rfl, rfl, rfl⟩
    · rw [tick_phaseBig s h0 hp]
      exact ⟨rfl, rfl, rfl⟩
  · have he := GetNextReport_echo s (by omega)
    have h1 : (GetNextReport s).1 = s.last_report := by rw [he]
    have h2 : (tick s).last_report = s.last_report := by
      unfold tick
      rw [he]
    rw [h1, h2, and_self]
    exact h (by omega)

/-- The cache is always neutral in the secondary axes and pad whenever a
replay is pending. -/
theorem stateAt_aux (k : Nat) :
    0 < (stateAt k).echoes → auxNeutral ((stateAt k).last_report) := by
  induction k with
  | zero => intro h; exact absurd h (by decide)
  | succ k ih =>
    intro _
    exact (emit_aux (stateAt k) ih).2

/-- C9: every report the engine ever emits keeps the two secondary axes at
STICK_CENTER and the pad at HAT_CENTER; and on any executor tick whose
active step has no buttons and centered sticks — or on which no phase
applies at all — the emitted report is the fully neutral one. -/
theorem claim_C9 (k : Nat) (s : ExecState) (h0 : s.echoes = 0) :
    ((GetNextReport (stateAt k)).1.RX = STICK_CENTER
      ∧ (GetNextReport (stateAt k)).1.RY = STICK_CENTER
      ∧ (GetNextReport (stateAt k)).1.HAT = HAT_CENTER)
    ∧ (s.phase ≤ 4 →
        ((phaseTable s.phase).getD s.step_num defaultStep).Button = 0 →
        ((phaseTable s.phase).getD s.step_num defaultStep).LX = STICK_CENTER →
        ((phaseTable s.phase).getD s.step_num defaultStep).LY = STICK_CENTER →
        (GetNextReport s).1 = defaultReport)
    ∧ (¬ s.phase ≤ 4 → (GetNextReport s).1 = defaultReport) := by
  refine ⟨(emit_aux (stateAt k) (stateAt_aux k)).1, ?_, tick_phaseBig s h0⟩
  intro hp hB hLX hLY
  have hcases : s.phase = 0 ∨ s.phase = 1 ∨ s.phase = 2 ∨ s.phase = 3
      ∨ s.phase = 4 := by omega
  have hout : (GetNextReport s).1 =
      { defaultReport with
        Button := defaultReport.Button |||
          ((phaseTable s.phase).getD s.step_num defaultStep).Button,
        LX := ((phaseTable s.phase).getD s.step_num defaultStep).LX,
        LY := ((phaseTable s.phase).getD s.step_num defaultStep).LY } := by
    rcases hcases with h1 | h1 | h1 | h1 | h1
    · rw [tick_phase0 s h0 h1]
      dsimp only
      rw [ExecuteStep_fst, h1]
      rfl
    · rw [tick_phase1 s h0 h1]
      dsimp only
      rw [ExecuteStepPartialLoop_fst, h1]
      rfl
    · rw [tick_phase2 s h0 h1]
      dsimp only
      rw [ExecuteStep_fst, h1]
      rfl
    · rw [tick_phase3 s h0 h1]
      dsimp only
      rw [ExecuteStepLoop_fst, h1]
      rfl
    · rw [tick_phase4 s h0 h1]
      dsimp only
      rw [ExecuteStep_fst, h1]
      rfl
  rw [hout, hB, hLX, hLY]
  rfl

theorem claim_C9_witness :
    initState.echoes = 0
    ∧ initState.phase ≤ 4
    ∧ ((phaseTable initState.phase).getD initState.step_num defaultStep).Button = 0
    ∧ ((phaseTable initState.phase).getD initState.step_num defaultStep).LX = STICK_CENTER
    ∧ ((phaseTable initState.phase).getD initState.step_num defaultStep).LY = STICK_CENTER
    ∧ (GetNextReport initState).1 = defaultReport
    ∧ phase9State.echoes = 0
    ∧ ¬ phase9State.phase ≤ 4
    ∧ (GetNextReport phase9State).1 = defaultReport :=
  ⟨by decide, by decide, by decide, by decide, by decide,
    (claim_C9 0 initState rfl).2.1 (by decide) (by decide) (by decide) (by decide),
    by decide, by decide,
    (claim_C9 0 phase9State rfl).2.2 (by decide)⟩

theorem linStep_adv (T : List Step) (sz : Nat) (s : ExecState)
    (h : s.step_num + 1 < sz) :
    linStep T sz s = { s with
      echoes := (T.getD s.step_num defaultStep).Duration,
      step_num := s.step_num + 1 } := by
  unfold linStep
  rw [ExecuteStep_snd, if_neg (by omega)]

theorem linStep_done (T : List Step) (sz : Nat) (s : ExecState)
    (h : s.step_num + 1 ≥ sz) :
    linStep T sz s = { s with
      echoes := (T.getD s.step_num defaultStep).Duration,
      step_num := 0, phase := s.phase + 1 } := by
  unfold linStep
  rw [ExecuteStep_snd, if_pos h]

theorem linIter_succ_right (T : List Step) (sz k : Nat) (s : ExecState) :
    linIter T sz (k + 1) s = linStep T sz (linIter T sz k s) := by
  induction k generalizing s with
  | zero => rfl
  | succ k ih =>
    rw [linIter, ih, linIter]

/-- Cursor position during one linear pass: starting at step 0, the cursor
reads index `i` on call `i` and the phase and loop counter are untouched. -/
theorem linIter_mid (T : List Step) (sz : Nat) (s : ExecState) (i : Nat)
    (hs : s.step_num = 0) (hi : i < sz) :
    (linIter T sz i s).step_num = i
    ∧ (linIter T sz i s).loop_num = s.loop_num
    ∧ (linIter T sz i s).phase = s.phase := by
  induction i with
  | zero => exact ⟨hs, rfl, rfl⟩
  | succ i ih =>
    obtain ⟨h1, h2, h3⟩ := ih (by omega)
    rw [linIter_succ_right, linStep_adv _ _ _ (by omega)]
    exact ⟨by rw [h1], h2, h3⟩

/-- C4: over any non-empty sequence, starting from step index 0, the linear
executor visits index `i` on call `i` (each index exactly once, in order),
overlaying the fields of step `i` onto the report (buttons by bitwise or)
and loading the echo count with its duration; after `length` calls the step
index is back to 0 and the phase has advanced, so the next request begins
the next phase. -/
theorem claim_C4 (T : List Step) (r : Report) (s : ExecState) (i : Nat)
    (hL : 0 < T.length) (hs : s.step_num = 0) (hi : i < T.length) :
    (linIter T T.length i s).step_num = i
    ∧ (linIter T T.length i s).loop_num = s.loop_num
    ∧ (linIter T T.length i s).phase = s.phase
    ∧ (ExecuteStep r T T.length (linIter T T.length i s)).1 =
        { r with
          Button := r.Button ||| (T.getD i defaultStep).Button,
          LX := (T.getD i defaultStep).LX,
          LY := (T.getD i defaultStep).LY }
    ∧ (linIter T T.length (i + 1) s).echoes = (T.getD i defaultStep).Duration
    ∧ (linIter T T.length T.length s).step_num = 0
    ∧ (linIter T T.length T.length s).loop_num = s.loop_num
    ∧ (linIter T T.length T.length s).phase = s.phase + 1 := by
  obtain ⟨h1, h2, h3⟩ := linIter_mid T T.length s i hs hi
  have hrep : (ExecuteStep r T T.length (linIter T T.length i s)).1 =
      { r with
        Button := r.Button ||| (T.getD i defaultStep).Button,
        LX := (T.getD i defaultStep).LX,
        LY := (T.getD i defaultStep).LY } := by
    rw [ExecuteStep_fst, h1]
  have hecho : (linIter T T.length (i + 1) s).echoes =
      (T.getD i defaultStep).Duration := by
    rw [linIter_succ_right]
    unfold linStep
    rw [ExecuteStep_snd]
    split <;> dsimp only <;> rw [h1]
  obtain ⟨g1, g2, g3⟩ := linIter_mid T T.length s (T.length - 1) hs (by omega)
  have key : ∀ m, m + 1 = T.length → linIter T T.length T.length s
      = linStep T T.length (linIter T T.length m s) := by
    intro m hm
    rw [← hm]
    exact linIter_succ_right T (m + 1) m s
  have hfin := key (T.length - 1) (by omega)
  have hdone := linStep_done T T.length (linIter T T.length (T.length - 1) s)
    (by rw [g1]; omega)
  rw [hfin, hdone]
  exact ⟨h1, h2, h3, hrep, hecho, rfl, g2, by rw [g3]⟩

theorem claim_C4_witness :
    0 < SyncController.length
    ∧ initState.step_num = 0
    ∧ 3 < SyncController.length
    ∧ ((linIter SyncController SyncController.length 3 initState).step_num = 3
      ∧ (linIter SyncController SyncController.length 3 initState).loop_num = initState.loop_num
      ∧ (linIter SyncController SyncController.length 3 initState).phase = initState.phase
      ∧ (ExecuteStep defaultReport SyncController SyncController.length
          (linIter SyncController SyncController.length 3 initState)).1 =
          { defaultReport with
            Button := defaultReport.Button |||
              (SyncController.getD 3 defaultStep).Button,
            LX := (SyncController.getD 3 defaultStep).LX,
            LY := (SyncController.getD 3 defaultStep).LY }
      ∧ (linIter SyncController SyncController.length 4 initState).echoes
          = (SyncController.getD 3 defaultStep).Duration
      ∧ (linIter SyncController SyncController.length SyncController.length
          initState).step_num = 0
      ∧ (linIter SyncController SyncController.length SyncController.length
          initState).loop_num = initState.loop_num
      ∧ (linIter SyncController SyncController.length SyncController.length
          initState).phase = initState.phase + 1) :=
  ⟨by decide, by decide, by decide,
    claim_C4 SyncController defaultReport initState 3 (by decide) (by decide)
      (by decide)⟩

theorem floopStep_adv (T : List Step) (sz n : Nat) (s : ExecState)
    (h : s.step_num + 1 < sz) :
    floopStep T sz n s = { s with
      echoes := (T.getD s.step_num defaultStep).Duration,
      step_num := s.step_num + 1 } := by
  unfold floopStep
  rw [ExecuteStepLoop_snd, if_neg (by omega)]

theorem floopStep_wrap (T : List Step) (sz n : Nat) (s : ExecState)
    (h1 : s.step_num + 1 ≥ sz) (h2 : s.loop_num + 1 < n) :
    floopStep T sz n s = { s with
      echoes := (T.getD s.step_num defaultStep).Duration,
      step_num := 0, loop_num := s.loop_num + 1 } := by
  unfold floopStep
  rw [ExecuteStepLoop_snd, if_pos h1, if_neg (by omega)]

theorem floopStep_done (T : List Step) (sz n : Nat) (s : ExecState)
    (h1 : s.step_num + 1 ≥ sz) (h2 : s.loop_num + 1 ≥ n) :
    floopStep T sz n s = { s with
      echoes := (T.getD s.step_num defaultStep).Duration,
      step_num := 0, loop_num := 0, phase := s.phase + 1 } := by
  unfold floopStep
  rw [ExecuteStepLoop_snd, if_pos h1, if_pos h2]

theorem floopIter_succ_right (T : List Step) (sz n k : Nat) (s : ExecState) :
    floopIter T sz n (k + 1) s = floopStep T sz n (floopIter T sz n k s) := by
  induction k generalizing s with
  | zero => rfl
  | succ k ih => rw [floopIter, ih, floopIter]

theorem floopIter_add (T : List Step) (sz n : Nat) (a b : Nat) (s : ExecState) :
    floopIter T sz n (a + b) s = floopIter T sz n b (floopIter T sz n a s) := by
  induction a generalizing s with
  | zero => simp [floopIter]
  | succ a ih =>
    have h : a + 1 + b = (a + b) + 1 := by omega
    rw [h, floopIter, floopIter, ih]

theorem floopVisits_append (T : List Step) (sz n : Nat) (a b : Nat)
    (s : ExecState) :
    floopVisits T sz n (a + b) s =
      floopVisits T sz n a s ++ floopVisits T sz n b (floopIter T sz n a s) := by
  induction a generalizing s with
  | zero => simp [floopVisits, floopIter]
  | succ a ih =>
    have h : a + 1 + b = (a + b) + 1 := by omega
    rw [h, floopVisits, floopVisits, floopIter, ih, List.cons_append]

theorem floopVisits_run (T : List Step) (sz n : Nat) :
    ∀ (m : Nat) (s : ExecState), s.step_num + m ≤ sz →
      floopVisits T sz n m s = List.range' s.step_num m := by
  intro m
  induction m with
  | zero => intro s _; rfl
  | succ m ih =>
    intro s h
    rw [floopVisits, List.range'_succ]
    by_cases hlt : s.step_num + 1 < sz
    · rw [floopStep_adv T sz n s hlt, ih _ (by dsimp only; omega)]
    · have hm : m = 0 := by omega
      subst hm
      rfl

/-- One full pass of the full-loop executor from step 0: the cursor reads
index `k` on call `k`, and the final call either bumps the loop counter
(when more iterations remain) or resets everything and advances the phase. -/
theorem floop_pass (T : List Step) (sz n : Nat) (s : ExecState)
    (hs : s.step_num = 0) (hsz : 0 < sz) :
    (∀ k, k < sz → (floopIter T sz n k s).step_num = k
      ∧ (floopIter T sz n k s).loop_num = s.loop_num
      ∧ (floopIter T sz n k s).phase = s.phase)
    ∧ floopVisits T sz n sz s = List.range sz
    ∧ (s.loop_num + 1 < n →
        (floopIter T sz n sz s).step_num = 0
        ∧ (floopIter T sz n sz s).loop_num = s.loop_num + 1
        ∧ (floopIter T sz n sz s).phase = s.phase)
    ∧ (s.loop_num + 1 ≥ n →
        (floopIter T sz n sz s).step_num = 0
        ∧ (floopIter T sz n sz s).loop_num = 0
        ∧ (floopIter T sz n sz s).phase = s.phase + 1) := by
  have mid : ∀ k, k < sz → (floopIter T sz n k s).step_num = k
      ∧ (floopIter T sz n k s).loop_num = s.loop_num
      ∧ (floopIter T sz n k s).phase = s.phase := by
    intro k
    induction k with
    | zero => intro _; exact ⟨hs, rfl, rfl⟩
    | succ k ih =>
      intro hk
      obtain ⟨h1, h2, h3⟩ := ih (by omega)
      rw [floopIter_succ_right, floopStep_adv _ _ _ _ (by omega)]
      exact ⟨by rw [h1], h2, h3⟩
  have key : ∀ m, m + 1 = sz → floopIter T sz n sz s
      = floopStep T sz n (floopIter T sz n m s) := by
    intro m hm
    rw [← hm]
    exact floopIter_succ_right T (m + 1) n m s
  have hfin := key (sz - 1) (by omega)
  obtain ⟨g1, g2, g3⟩ := mid (sz - 1) (by omega)
  refine ⟨mid, ?_, ?_, ?_⟩
  · rw [floopVisits_run T sz n sz s (by omega)]
    rw [hs]
    exact (List.range_eq_range' sz).symm
  · intro hn
    rw [hfin, floopStep_wrap _ _ _ _ (by omega) (by rw [g2]; omega)]
    exact ⟨rfl, by dsimp only; rw [g2], by dsimp only; rw [g3]⟩
  · intro hn
    rw [hfin, floopStep_done _ _ _ _ (by omega) (by rw [g2]; omega)]
    exact ⟨rfl, rfl, by dsimp only; rw [g3]⟩

/-- Successive full passes: after `j` complete passes (while iterations
remain) the cursor is back at step 0, the loop counter has grown by `j`,
the phase never moved, and the visit list is `j` copies of the index
range. -/
theorem floop_passes (T : List Step) (sz n : Nat) (hsz : 0 < sz) :
    ∀ (j : Nat) (s : ExecState), s.step_num = 0 → s.loop_num + j < n →
      (∀ k, k ≤ j * sz → (floopIter T sz n k s).phase = s.phase)
      ∧ (floopIter T sz n (j * sz) s).step_num = 0
      ∧ (floopIter T sz n (j * sz) s).loop_num = s.loop_num + j
      ∧ floopVisits T sz n (j * sz) s
          = (List.replicate j (List.range sz)).flatten := by
  intro j
  induction j with
  | zero =>
    intro s hs _
    simp only [Nat.zero_mul]
    refine ⟨?_, hs, rfl, rfl⟩
    intro k hk
    have : k = 0 := by omega
    subst this
    rfl
  | succ j ih =>
    intro s hs hj
    have pass := floop_pass T sz n s hs hsz
    have hwrap := pass.2.2.1 (by omega)
    obtain ⟨ihk, ih1, ih2, ih3⟩ := ih (floopIter T sz n sz s) hwrap.1
      (by rw [hwrap.2.1]; omega)
    have e : (j + 1) * sz = sz + j * sz := by
      rw [Nat.succ_mul, Nat.add_comm]
    refine ⟨?_, ?_, ?_, ?_⟩
    · intro k hk
      by_cases hksz : k ≤ sz
      · by_cases hklt : k < sz
        · exact (pass.1 k hklt).2.2
        · have : k = sz := by omega
          subst this
          exact hwrap.2.2
      · have hk2 : k = sz + (k - sz) := by omega
        rw [hk2, floopIter_add]
        rw [ihk (k - sz) (by rw [e] at hk; omega)]
        exact hwrap.2.2
    · rw [e, floopIter_add]
      exact ih1
    · rw [e, floopIter_add, ih2, hwrap.2.1]
      omega
    · rw [e, floopVisits_append, pass.2.1, ih3, List.replicate_succ,
        List.flatten_cons]

/-- C5: over any non-empty sequence of length `L`, `FullLoop(n)` from a
fresh cursor performs exactly `n * L` executor calls before signalling
phase completion — the phase is unchanged at every earlier call, the whole
sequence is visited end-to-end `n` times — and at completion both the loop
counter and the step index are reset to zero. -/
theorem claim_C5 (T : List Step) (n : Nat) (s : ExecState) (k : Nat)
    (hL : 0 < T.length) (hn : 1 ≤ n) (hs : s.step_num = 0)
    (hl : s.loop_num = 0) (hk : k < n * T.length) :
    (floopIter T T.length n k s).phase = s.phase
    ∧ (floopIter T T.length n (n * T.length) s).step_num = 0
    ∧ (floopIter T T.length n (n * T.length) s).loop_num = 0
    ∧ (floopIter T T.length n (n * T.length) s).phase = s.phase + 1
    ∧ floopVisits T T.length n (n * T.length) s
        = (List.replicate n (List.range T.length)).flatten := by
  obtain ⟨pk, p1, p2, p3⟩ := floop_passes T T.length n hL (n - 1) s hs
    (by omega)
  have e : n * T.length = (n - 1) * T.length + T.length := by
    conv_lhs => rw [show n = n - 1 + 1 from by omega]
    rw [Nat.succ_mul]
  have pass2 := floop_pass T T.length n
    (floopIter T T.length n ((n - 1) * T.length) s) p1 hL
  have hdone := pass2.2.2.2 (by rw [p2]; omega)
  refine ⟨?_, ?_, ?_, ?_, ?_⟩
  · by_cases hksz : k ≤ (n - 1) * T.length
    · exact pk k hksz
    · have hk2 : k = (n - 1) * T.length + (k - (n - 1) * T.length) := by omega
      rw [hk2, floopIter_add]
      have hlt : k - (n - 1) * T.length < T.length := by
        rw [e] at hk
        omega
      rw [(pass2.1 _ hlt).2.2]
      exact pk ((n - 1) * T.length) (Nat.le_refl _)
  · rw [e, floopIter_add]
    exact hdone.1
  · rw [e, floopIter_add]
    exact hdone.2.1
  · rw [e, floopIter_add, hdone.2.2, pk ((n - 1) * T.length) (Nat.le_refl _)]
  · rw [e, floopVisits_append, p3, pass2.2.1]
    have hr : List.replicate n (List.range T.length)
        = List.replicate (n - 1) (List.range T.length)
          ++ [List.range T.length] := by
      conv_lhs => rw [show n = n - 1 + 1 from by omega]
      rw [List.replicate_succ']
    rw [hr, List.flatten_append]
    simp

theorem claim_C5_witness :
    0 < BikeBig.length ∧ 1 ≤ 3 ∧ phase3State.step_num = 0
    ∧ phase3State.loop_num = 0 ∧ 4 < 3 * BikeBig.length
    ∧ ((floopIter BikeBig BikeBig.length 3 4 phase3State).phase = phase3State.phase
      ∧ (floopIter BikeBig BikeBig.length 3 (3 * BikeBig.length) phase3State).step_num = 0
      ∧ (floopIter BikeBig BikeBig.length 3 (3 * BikeBig.length) phase3State).loop_num = 0
      ∧ (floopIter BikeBig BikeBig.length 3 (3 * BikeBig.length) phase3State).phase
          = phase3State.phase + 1
      ∧ floopVisits BikeBig BikeBig.length 3 (3 * BikeBig.length) phase3State
          = (List.replicate 3 (List.range BikeBig.length)).flatten) :=
  ⟨by decide, by decide, by decide, by decide, by decide,
    claim_C5 BikeBig 3 phase3State 4 (by decide) (by decide) (by decide)
      (by decide) (by decide)⟩

theorem ploopStep_adv (T : List Step) (sz a b n : Nat) (s : ExecState)
    (h1 : ¬(s.step_num + 1 = b ∧ s.loop_num < n - 1))
    (h2 : s.step_num + 1 < sz) :
    (ploopStep T sz a b n s).step_num = s.step_num + 1
    ∧ (ploopStep T sz a b n s).loop_num = s.loop_num
    ∧ (ploopStep T sz a b n s).phase = s.phase := by
  unfold ploopStep
  rw [ExecuteStepPartialLoop_snd, if_neg h1, if_neg (by omega)]
  exact ⟨rfl, rfl, rfl⟩

theorem ploopStep_jump (T : List Step) (sz a b n : Nat) (s : ExecState)
    (h1 : s.step_num + 1 = b) (h2 : s.loop_num < n - 1) (h3 : a < sz) :
    (ploopStep T sz a b n s).step_num = a
    ∧ (ploopStep T sz a b n s).loop_num = s.loop_num + 1
    ∧ (ploopStep T sz a b n s).phase = s.phase := by
  unfold ploopStep
  rw [ExecuteStepPartialLoop_snd, if_pos ⟨h1, h2⟩, if_neg (by omega)]
  exact ⟨rfl, rfl, rfl⟩

theorem ploopStep_done (T : List Step) (sz a b n : Nat) (s : ExecState)
    (h1 : ¬(s.step_num + 1 = b ∧ s.loop_num < n - 1))
    (h2 : s.step_num + 1 ≥ sz) :
    (ploopStep T sz a b n s).step_num = 0
    ∧ (ploopStep T sz a b n s).loop_num = 0
    ∧ (ploopStep T sz a b n s).phase = s.phase + 1 := by
  unfold ploopStep
  rw [ExecuteStepPartialLoop_snd, if_neg h1, if_pos h2]
  exact ⟨rfl, rfl, rfl⟩

theorem ploopIter_add (T : List Step) (sz a b n : Nat) (x y : Nat)
    (s : ExecState) :
    ploopIter T sz a b n (x + y) s
      = ploopIter T sz a b n y (ploopIter T sz a b n x s) := by
  induction x generalizing s with
  | zero => simp [ploopIter]
  | succ x ih =>
    have h : x + 1 + y = (x + y) + 1 := by omega
    rw [h, ploopIter, ploopIter, ih]

theorem ploopVisits_append (T : List Step) (sz a b n : Nat) (x y : Nat)
    (s : ExecState) :
    ploopVisits T sz a b n (x + y) s =
      ploopVisits T sz a b n x s
        ++ ploopVisits T sz a b n y (ploopIter T sz a b n x s) := by
  induction x generalizing s with
  | zero => simp [ploopVisits, ploopIter]
  | succ x ih =>
    have h : x + 1 + y = (x + y) + 1 := by omega
    rw [h, ploopVisits, ploopVisits, ploopIter, ih, List.cons_append]

/-- Splitting a unit-step index range. -/
theorem range'_split (s m k : Nat) :
    List.range' s (m + k) = List.range' s m ++ List.range' (s + m) k := by
  have h := List.range'_append s m k 1
  simp only [Nat.one_mul] at h
  rw [Nat.add_comm m k, ← h]

/-- Appending the top element to a unit-step index range. -/
theorem range'_snoc (s m : Nat) :
    List.range' s (m + 1) = List.range' s m ++ [s + m] := by
  have h := @List.range'_concat 1 s m
  simpa using h

/-- A run of the partial-loop executor that meets neither the jump-back
condition nor the end of the table advances the cursor one index per call
and moves nothing else. -/
theorem ploop_run_mid (T : List Step) (sz a b n : Nat) :
    ∀ (m : Nat) (s : ExecState),
      s.step_num + m < sz →
      (∀ t, s.step_num < t → t ≤ s.step_num + m →
        ¬(t = b ∧ s.loop_num < n - 1)) →
      (∀ k, k ≤ m → (ploopIter T sz a b n k s).step_num = s.step_num + k
        ∧ (ploopIter T sz a b n k s).loop_num = s.loop_num
        ∧ (ploopIter T sz a b n k s).phase = s.phase)
      ∧ ploopVisits T sz a b n m s = List.range' s.step_num m := by
  intro m
  induction m with
  | zero =>
    intro s _ _
    refine ⟨?_, rfl⟩
    intro k hk
    have : k = 0 := by omega
    subst this
    exact ⟨rfl, rfl, rfl⟩
  | succ m ih =>
    intro s hm hb
    have hnj : ¬(s.step_num + 1 = b ∧ s.loop_num < n - 1) :=
      hb (s.step_num + 1) (by omega) (by omega)
    obtain ⟨a1, a2, a3⟩ := ploopStep_adv T sz a b n s hnj (by omega)
    obtain ⟨ihk, ihv⟩ := ih (ploopStep T sz a b n s)
      (by rw [a1]; omega)
      (by
        intro t h1 h2
        rw [a1] at h1 h2
        rw [a2]
        exact hb t (by omega) (by omega))
    refine ⟨?_, ?_⟩
    · intro k hk
      match k with
      | 0 => exact ⟨rfl, rfl, rfl⟩
      | j + 1 =>
        have hrew : ploopIter T sz a b n (j + 1) s
            = ploopIter T sz a b n j (ploopStep T sz a b n s) := rfl
        obtain ⟨e1, e2, e3⟩ := ihk j (by omega)
        rw [a1] at e1
        rw [a2] at e2
        rw [a3] at e3
        rw [hrew, e1, e2, e3]
        exact ⟨by omega, rfl, rfl⟩
    · rw [ploopVisits, ihv, a1, List.range'_succ]

/-- One looping pass of the partial-loop executor: from cursor `a` with
iterations remaining, `b - a` calls read `a, ..., b - 1` and the last of
them jumps the cursor back to `a`, incrementing the loop counter. -/
theorem ploop_pass (T : List Step) (sz a b n : Nat) (s : ExecState)
    (hs : s.step_num = a) (hl : s.loop_num < n - 1)
    (hab : a < b) (hbsz : b ≤ sz) :
    (∀ k, k < b - a → (ploopIter T sz a b n k s).step_num = a + k
      ∧ (ploopIter T sz a b n k s).loop_num = s.loop_num
      ∧ (ploopIter T sz a b n k s).phase = s.phase)
    ∧ (ploopIter T sz a b n (b - a) s).step_num = a
    ∧ (ploopIter T sz a b n (b - a) s).loop_num = s.loop_num + 1
    ∧ (ploopIter T sz a b n (b - a) s).phase = s.phase
    ∧ ploopVisits T sz a b n (b - a) s = List.range' a (b - a) := by
  obtain ⟨mid, vrun⟩ := ploop_run_mid T sz a b n (b - a - 1) s
    (by omega)
    (by
      intro t h1 h2 hc
      rw [hs] at h2
      omega)
  obtain ⟨e1, e2, e3⟩ := mid (b - a - 1) (Nat.le_refl _)
  have key : ∀ m, m + 1 = b - a → ploopIter T sz a b n (b - a) s
      = ploopStep T sz a b n (ploopIter T sz a b n m s) := by
    intro m hm
    rw [← hm, ploopIter_add]
    rfl
  have hfin := key (b - a - 1) (by omega)
  obtain ⟨j1, j2, j3⟩ := ploopStep_jump T sz a b n
    (ploopIter T sz a b n (b - a - 1) s)
    (by rw [e1, hs]; omega) (by rw [e2]; omega) (by omega)
  refine ⟨?_, ?_, ?_, ?_, ?_⟩
  · intro k hk
    obtain ⟨f1, f2, f3⟩ := mid k (by omega)
    rw [f1, f2, f3, hs]
    exact ⟨rfl, rfl, rfl⟩
  · rw [hfin, j1]
  · rw [hfin, j2, e2]
  · rw [hfin, j3, e3]
  · have ev : b - a = (b - a - 1) + 1 := by omega
    rw [ev, ploopVisits_append, vrun, hs]
    have hone : ploopVisits T sz a b n 1 (ploopIter T sz a b n (b - a - 1) s)
        = [a + (b - a - 1)] := by
      rw [ploopVisits, ploopVisits, e1, hs]
    rw [hone, ← range'_snoc]

/-- Successive looping passes of the partial-loop executor: `j` passes make
`j * (b - a)` calls, return the cursor to `a`, grow the loop counter by
`j`, keep the phase, and visit the sub-range `j` times over. -/
theorem ploop_passes (T : List Step) (sz a b n : Nat)
    (hab : a < b) (hbsz : b ≤ sz) :
    ∀ (j : Nat) (s : ExecState), s.step_num = a → s.loop_num + j ≤ n - 1 →
      (∀ k, k ≤ j * (b - a) → (ploopIter T sz a b n k s).phase = s.phase)
      ∧ (ploopIter T sz a b n (j * (b - a)) s).step_num = a
      ∧ (ploopIter T sz a b n (j * (b - a)) s).loop_num = s.loop_num + j
      ∧ ploopVisits T sz a b n (j * (b - a)) s
          = (List.replicate j (List.range' a (b - a))).flatten := by
  intro j
  induction j with
  | zero =>
    intro s hs _
    simp only [Nat.zero_mul]
    refine ⟨?_, hs, rfl, rfl⟩
    intro k hk
    have : k = 0 := by omega
    subst this
    rfl
  | succ j ih =>
    intro s hs hj
    have pass := ploop_pass T sz a b n s hs (by omega) hab hbsz
    obtain ⟨ihk, ih1, ih2, ih3⟩ := ih (ploopIter T sz a b n (b - a) s)
      pass.2.1 (by rw [pass.2.2.1]; omega)
    have e : (j + 1) * (b - a) = (b - a) + j * (b - a) := by
      rw [Nat.succ_mul, Nat.add_comm]
    refine ⟨?_, ?_, ?_, ?_⟩
    · intro k hk
      by_cases hkp : k ≤ b - a
      · by_cases hklt : k < b - a
        · exact (pass.1 k hklt).2.2
        · have : k = b - a := by omega
          subst this
          exact pass.2.2.2.1
      · have hk2 : k = (b - a) + (k - (b - a)) := by omega
        rw [hk2, ploopIter_add, ihk (k - (b - a)) (by rw [e] at hk; omega)]
        exact pass.2.2.2.1
    · rw [e, ploopIter_add]
      exact ih1
    · rw [e, ploopIter_add, ih2, pass.2.2.1]
      omega
    · rw [e, ploopVisits_append, pass.2.2.2.2, ih3, List.replicate_succ,
        List.flatten_cons]

/-- The final stretch of the partial-loop executor: once no iterations
remain, the cursor runs linearly from `a` to the end of the table; the
last call resets cursor and loop counter and advances the phase. -/
theorem ploop_tail (T : List Step) (sz a b n : Nat) (s : ExecState)
    (hs : s.step_num = a) (hl : ¬ s.loop_num < n - 1) (hasz : a < sz) :
    (∀ k, k < sz - a → (ploopIter T sz a b n k s).step_num = a + k
      ∧ (ploopIter T sz a b n k s).phase = s.phase)
    ∧ (ploopIter T sz a b n (sz - a) s).step_num = 0
    ∧ (ploopIter T sz a b n (sz - a) s).loop_num = 0
    ∧ (ploopIter T sz a b n (sz - a) s).phase = s.phase + 1
    ∧ ploopVisits T sz a b n (sz - a) s = List.range' a (sz - a) := by
  obtain ⟨mid, vrun⟩ := ploop_run_mid T sz a b n (sz - a - 1) s
    (by omega)
    (by
      intro t h1 h2 hc
      exact hl hc.2)
  obtain ⟨e1, e2, e3⟩ := mid (sz - a - 1) (Nat.le_refl _)
  have key : ∀ m, m + 1 = sz - a → ploopIter T sz a b n (sz - a) s
      = ploopStep T sz a b n (ploopIter T sz a b n m s) := by
    intro m hm
    rw [← hm, ploopIter_add]
    rfl
  have hfin := key (sz - a - 1) (by omega)
  obtain ⟨d1, d2, d3⟩ := ploopStep_done T sz a b n
    (ploopIter T sz a b n (sz - a - 1) s)
    (by
      rw [e2]
      intro hc
      exact hl hc.2)
    (by rw [e1, hs]; omega)
  refine ⟨?_, ?_, ?_, ?_, ?_⟩
  · intro k hk
    obtain ⟨f1, _, f3⟩ := mid k (by omega)
    rw [f1, f3, hs]
    exact ⟨rfl, rfl⟩
  · rw [hfin, d1]
  · rw [hfin, d2]
  · rw [hfin, d3, e3]
  · have ev : sz - a = (sz - a - 1) + 1 := by omega
    rw [ev, ploopVisits_append, vrun, hs]
    have hone : ploopVisits T sz a b n 1 (ploopIter T sz a b n (sz - a - 1) s)
        = [a + (sz - a - 1)] := by
      rw [ploopVisits, ploopVisits, e1, hs]
    rw [hone, ← range'_snoc]

theorem count_flatten_replicate (j : Nat) (L : List Nat) (i : Nat) :
    ((List.replicate j L).flatten).count i = j * L.count i := by
  induction j with
  | zero => simp
  | succ j ih =>
    rw [List.replicate_succ, List.flatten_cons, List.count_append, ih,
      Nat.succ_mul]
    omega

theorem count_range' (s m i : Nat) :
    (List.range' s m).count i = if s ≤ i ∧ i < s + m then 1 else 0 := by
  by_cases h : s ≤ i ∧ i < s + m
  · rw [if_pos h]
    exact List.count_eq_one_of_mem (List.nodup_range' s m 1 (by omega)) (List.mem_range'_1.mpr h)
  · rw [if_neg h]
    exact List.count_eq_zero_of_not_mem (fun hm => h (List.mem_range'_1.mp hm))

/-- C2: for `PartialLoop(a, b, n)` with `0 ≤ a < b ≤ L` and `n ≥ 1` from a
fresh cursor, the phase completes after exactly `a + n*(b-a) + (L-b)`
executor calls, whose visit list is: the prefix `[0..a)` once, the
sub-range `[a..b)` exactly `n` times over, then the suffix `[b..L)` once —
so each index inside `[a, b)` is read `n` times and each other index once.
The phase is unchanged at every earlier call, and completion resets step
index and loop counter to zero.  In the concrete configuration
(`GetEgg`, 22 steps, bounds 13 and 15, `n = 5`) indices 13 and 14 are each
visited five times. -/
theorem claim_C2 (T : List Step) (a b n : Nat) (s : ExecState) (k i : Nat)
    (hab : a < b) (hbL : b ≤ T.length) (hn : 1 ≤ n)
    (hs : s.step_num = 0) (hl : s.loop_num = 0)
    (hk : k < a + n * (b - a) + (T.length - b)) (hi : i < T.length) :
    ploopVisits T T.length a b n (a + n * (b - a) + (T.length - b)) s
      = List.range a ++ (List.replicate n (List.range' a (b - a))).flatten
        ++ List.range' b (T.length - b)
    ∧ (ploopVisits T T.length a b n (a + n * (b - a) + (T.length - b)) s).count i
        = (if a ≤ i ∧ i < b then n else 1)
    ∧ (ploopIter T T.length a b n k s).phase = s.phase
    ∧ (ploopIter T T.length a b n (a + n * (b - a) + (T.length - b)) s).step_num = 0
    ∧ (ploopIter T T.length a b n (a + n * (b - a) + (T.length - b)) s).loop_num = 0
    ∧ (ploopIter T T.length a b n (a + n * (b - a) + (T.length - b)) s).phase
        = s.phase + 1
    ∧ (ploopVisits GetEgg 22 13 15 5 30 eggState).count 13 = 5
    ∧ (ploopVisits GetEgg 22 13 15 5 30 eggState).count 14 = 5 := by
  obtain ⟨midA, vA⟩ := ploop_run_mid T T.length a b n a s
    (by omega)
    (by
      intro t h1 h2 hc
      rw [hs] at h2
      omega)
  obtain ⟨eA1, eA2, eA3⟩ := midA a (Nat.le_refl _)
  obtain ⟨pk, p1, p2, p3⟩ := ploop_passes T T.length a b n hab hbL (n - 1)
    (ploopIter T T.length a b n a s) (by rw [eA1, hs]; omega) (by rw [eA2, hl]; omega)
  obtain ⟨tk, t1, t2, t3, tv⟩ := ploop_tail T T.length a b n
    (ploopIter T T.length a b n ((n - 1) * (b - a))
      (ploopIter T T.length a b n a s))
    p1 (by rw [p2, eA2, hl]; omega) (by omega)
  have hmul : n * (b - a) = (n - 1) * (b - a) + (b - a) := by
    conv_lhs => rw [show n = n - 1 + 1 from by omega]
    rw [Nat.succ_mul]
  have eK : a + n * (b - a) + (T.length - b)
      = a + ((n - 1) * (b - a) + (T.length - a)) := by omega
  have htrace : ploopVisits T T.length a b n
      (a + n * (b - a) + (T.length - b)) s
      = List.range a ++ (List.replicate n (List.range' a (b - a))).flatten
        ++ List.range' b (T.length - b) := by
    rw [eK, ploopVisits_append, ploopVisits_append, vA, p3, tv, hs]
    rw [show T.length - a = (b - a) + (T.length - b) from by omega,
      range'_split, show a + (b - a) = b from by omega]
    have hrep : (List.replicate n (List.range' a (b - a))).flatten
        = (List.replicate (n - 1) (List.range' a (b - a))).flatten
          ++ List.range' a (b - a) := by
      conv_lhs => rw [show n = n - 1 + 1 from by omega, List.replicate_succ']
      rw [List.flatten_append]
      simp
    rw [hrep, List.range_eq_range']
    simp [List.append_assoc]
  refine ⟨htrace, ?_, ?_, ?_, ?_, ?_, by decide, by decide⟩
  · rw [htrace, List.count_append, List.count_append,
      List.range_eq_range']
    simp only [count_flatten_replicate, count_range']
    split_ifs <;> omega
  · by_cases hk1 : k ≤ a
    · exact (midA k hk1).2.2
    · by_cases hk2 : k ≤ a + (n - 1) * (b - a)
      · rw [show k = a + (k - a) from by omega, ploopIter_add,
          pk (k - a) (by omega)]
        exact eA3
      · have hk3 : k = a + ((n - 1) * (b - a) + (k - a - (n - 1) * (b - a))) := by
          omega
        have hklt : k - a - (n - 1) * (b - a) < T.length - a := by omega
        rw [hk3, ploopIter_add, ploopIter_add, (tk _ hklt).2,
          pk ((n - 1) * (b - a)) (Nat.le_refl _)]
        exact eA3
  · rw [eK, ploopIter_add, ploopIter_add]
    exact t1
  · rw [eK, ploopIter_add, ploopIter_add]
    exact t2
  · rw [eK, ploopIter_add, ploopIter_add, t3,
      pk ((n - 1) * (b - a)) (Nat.le_refl _), eA3]

theorem claim_C2_witness :
    (13 : Nat) < 15 ∧ 15 ≤ GetEgg.length ∧ (1 : Nat) ≤ 5
    ∧ eggState.step_num = 0 ∧ eggState.loop_num = 0
    ∧ 17 < 13 + 5 * (15 - 13) + (GetEgg.length - 15)
    ∧ 14 < GetEgg.length
    ∧ (ploopVisits GetEgg GetEgg.length 13 15 5
          (13 + 5 * (15 - 13) + (GetEgg.length - 15)) eggState
        = List.range 13 ++ (List.replicate 5 (List.range' 13 (15 - 13))).flatten
          ++ List.range' 15 (GetEgg.length - 15)
      ∧ (ploopVisits GetEgg GetEgg.length 13 15 5
          (13 + 5 * (15 - 13) + (GetEgg.length - 15)) eggState).count 14
          = (if 13 ≤ 14 ∧ 14 < 15 then 5 else 1)
      ∧ (ploopIter GetEgg GetEgg.length 13 15 5 17 eggState).phase
          = eggState.phase
      ∧ (ploopIter GetEgg GetEgg.length 13 15 5
          (13 + 5 * (15 - 13) + (GetEgg.length - 15)) eggState).step_num = 0
      ∧ (ploopIter GetEgg GetEgg.length 13 15 5
          (13 + 5 * (15 - 13) + (GetEgg.length - 15)) eggState).loop_num = 0
      ∧ (ploopIter GetEgg GetEgg.length 13 15 5
          (13 + 5 * (15 - 13) + (GetEgg.length - 15)) eggState).phase
          = eggState.phase + 1
      ∧ (ploopVisits GetEgg 22 13 15 5 30 eggState).count 13 = 5
      ∧ (ploopVisits GetEgg 22 13 15 5 30 eggState).count 14 = 5) :=
  ⟨by decide, by decide, by decide, by decide, by decide, by decide, by decide,
    claim_C2 GetEgg 13 15 5 eggState 17 14 (by decide) (by decide) (by decide)
      (by decide) (by decide) (by decide) (by decide)⟩
/-- The engine state 400 ticks after power-on. -/
def cs4 : ExecState :=
  { phase := 1, step_num := 1, loop_num := 0, egg_slot := 0,
    echoes := 249,
    last_report := { Button := 0, HAT := 8, LX := 128, LY := 128,
                     RX := 128, RY := 128 } }

theorem tickN_cs4 : tickN 100 stateC = cs4 := by decide

theorem tickN_cs5 : tickN 100 cs4 = cs5 := by decide

theorem tickN_cs6 : tickN 100 cs5 = cs6 := by decide

theorem tickN_cs7 : tickN 100 cs6 = cs7 := by decide

theorem tickN_cs8 : tickN 100 cs7 = cs8 := by decide

theorem tickN_cs9 : tickN 100 cs8 = cs9 := by decide

theorem tickN_cs10 : tickN 100 cs9 = cs10 := by decide

theorem tickN_cs11 : tickN 100 cs10 = cs11 := by decide

theorem tickN_cs12 : tickN 100 cs11 = cs12 := by decide

theorem tickN_cs13 : tickN 100 cs12 = cs13 := by decide

theorem tickN_cs14 : tickN 100 cs13 = cs14 := by decide

theorem tickN_cs15 : tickN 100 cs14 = cs15 := by decide

theorem tickN_cs16 : tickN 100 cs15 = cs16 := by decide

theorem tickN_cs17 : tickN 100 cs16 = cs17 := by decide

theorem tickN_cs18 : tickN 100 cs17 = cs18 := by decide

theorem tickN_cs19 : tickN 100 cs18 = cs19 := by decide

theorem tickN_cs20 : tickN 100 cs19 = cs20 := by decide

theorem tickN_cs21 : tickN 100 cs20 = cs21 := by decide

theorem tickN_cs22 : tickN 100 cs21 = cs22 := by decide

theorem tickN_cs23 : tickN 100 cs22 = cs23 := by decide

theorem tickN_cs24 : tickN 100 cs23 = cs24 := by decide

theorem tickN_cs25 : tickN 100 cs24 = cs25 := by decide

theorem tickN_cs26 : tickN 100 cs25 = cs26 := by decide

theorem tickN_cs27 : tickN 100 cs26 = cs27 := by decide

theorem tickN_cs28 : tickN 100 cs27 = cs28 := by decide

theorem tickN_cs29 : tickN 100 cs28 = cs29 := by decide

theorem tickN_cs30 : tickN 100 cs29 = cs30 := by decide

theorem tickN_cs31 : tickN 100 cs30 = cs31 := by decide

theorem tickN_cs32 : tickN 100 cs31 = cs32 := by decide

theorem tickN_cs33 : tickN 100 cs32 = cs33 := by decide

theorem tickN_cs34 : tickN 100 cs33 = cs34 := by decide

theorem tickN_cs35 : tickN 100 cs34 = cs35 := by decide

theorem tickN_cs36 : tickN 100 cs35 = cs36 := by decide

theorem tickN_cs37 : tickN 100 cs36 = cs37 := by decide

theorem tickN_cs38 : tickN 100 cs37 = cs38 := by decide

theorem tickN_cs39 : tickN 100 cs38 = cs39 := by decide

theorem tickN_cs40 : tickN 100 cs39 = cs40 := by decide

theorem tickN_cs41 : tickN 100 cs40 = cs41 := by decide

theorem stateAt_4100 : stateAt 4100 = cs41 := by
  rw [stateAt_eq_tickN,
    show (4100 : Nat) = 100 + (100 + (100 + (100 + (100 + (100 + (100 + (100 + (100 + (100 + (100 + (100 + (100 + (100 + (100 + (100 + (100 + (100 + (100 + (100 + (100 + (100 + (100 + (100 + (100 + (100 + (100 + (100 + (100 + (100 + (100 + (100 + (100 + (100 + (100 + (100 + (100 + (100 + (100 + (100 + (100)))))))))))))))))))))))))))))))))))))))) from rfl,
    tickN_add,
    tickN_chunkA,
    tickN_add,
    tickN_chunkB,
    tickN_add,
    tickN_chunkC,
    tickN_add,
    tickN_cs4,
    tickN_add,
    tickN_cs5,
    tickN_add,
    tickN_cs6,
    tickN_add,
    tickN_cs7,
    tickN_add,
    tickN_cs8,
    tickN_add,
    tickN_cs9,
    tickN_add,
    tickN_cs10,
    tickN_add,
    tickN_cs11,
    tickN_add,
    tickN_cs12,
    tickN_add,
    tickN_cs13,
    tickN_add,
    tickN_cs14,
    tickN_add,
    tickN_cs15,
    tickN_add,
    tickN_cs16,
    tickN_add,
    tickN_cs17,
    tickN_add,
    tickN_cs18,
    tickN_add,
    tickN_cs19,
    tickN_add,
    tickN_cs20,
    tickN_add,
    tickN_cs21,
    tickN_add,
    tickN_cs22,
    tickN_add,
    tickN_cs23,
    tickN_add,
    tickN_cs24,
    tickN_add,
    tickN_cs25,
    tickN_add,
    tickN_cs26,
    tickN_add,
    tickN_cs27,
    tickN_add,
    tickN_cs28,
    tickN_add,
    tickN_cs29,
    tickN_add,
    tickN_cs30,
    tickN_add,
    tickN_cs31,
    tickN_add,
    tickN_cs32,
    tickN_add,
    tickN_cs33,
    tickN_add,
    tickN_cs34,
    tickN_add,
    tickN_cs35,
    tickN_add,
    tickN_cs36,
    tickN_add,
    tickN_cs37,
    tickN_add,
    tickN_cs38,
    tickN_add,
    tickN_cs39,
    tickN_add,
    tickN_cs40,
    tickN_cs41]

theorem ExecuteStep_phase_cases (r : Report) (T : List Step) (sz : Nat)
    (s : ExecState) :
    (ExecuteStep r T sz s).2.phase = s.phase
    ∨ (ExecuteStep r T sz s).2.phase = s.phase + 1 := by
  rw [ExecuteStep_snd]
  split
  · exact Or.inr rfl
  · exact Or.inl rfl

theorem ExecuteStep_egg (r : Report) (T : List Step) (sz : Nat)
    (s : ExecState) :
    (ExecuteStep r T sz s).2.egg_slot = s.egg_slot := by
  rw [ExecuteStep_snd]
  split <;> rfl

theorem ExecuteStepLoop_phase_cases (r : Report) (T : List Step) (sz n : Nat)
    (s : ExecState) :
    (ExecuteStepLoop r T sz n s).2.phase = s.phase
    ∨ (ExecuteStepLoop r T sz n s).2.phase = s.phase + 1 := by
  rw [ExecuteStepLoop_snd]
  split
  · split
    · exact Or.inr rfl
    · exact Or.inl rfl
  · exact Or.inl rfl

theorem ExecuteStepLoop_egg (r : Report) (T : List Step) (sz n : Nat)
    (s : ExecState) :
    (ExecuteStepLoop r T sz n s).2.egg_slot = s.egg_slot := by
  rw [ExecuteStepLoop_snd]
  split <;> (try split) <;> rfl

theorem ExecuteStepPartialLoop_phase_cases (r : Report) (T : List Step)
    (sz a b n : Nat) (s : ExecState) :
    (ExecuteStepPartialLoop r T sz a b n s).2.phase = s.phase
    ∨ (ExecuteStepPartialLoop r T sz a b n s).2.phase = s.phase + 1 := by
  rw [ExecuteStepPartialLoop_snd]
  split <;> split
  · exact Or.inr rfl
  · exact Or.inl rfl
  · exact Or.inr rfl
  · exact Or.inl rfl

theorem ExecuteStepPartialLoop_egg (r : Report) (T : List Step)
    (sz a b n : Nat) (s : ExecState) :
    (ExecuteStepPartialLoop r T sz a b n s).2.egg_slot = s.egg_slot := by
  rw [ExecuteStepPartialLoop_snd]
  split <;> split <;> rfl

/-- One tick, seen by the phase scheduler: the phase either stays, advances
by one (slot untouched), or wraps from 4 back to 1 while the slot counter
advances modulo 5. -/
theorem tick_phase_cases (s : ExecState) (h : s.phase ≤ 4) :
    ((tick s).phase = s.phase ∧ (tick s).egg_slot = s.egg_slot)
    ∨ (s.phase < 4 ∧ (tick s).phase = s.phase + 1
        ∧ (tick s).egg_slot = s.egg_slot)
    ∨ (s.phase = 4 ∧ (tick s).phase = 1
        ∧ (tick s).egg_slot = (s.egg_slot + 1) % 5) := by
  by_cases h0 : s.echoes = 0
  · have hcases : s.phase = 0 ∨ s.phase = 1 ∨ s.phase = 2 ∨ s.phase = 3
        ∨ s.phase = 4 := by omega
    rcases hcases with h1 | h1 | h1 | h1 | h1
    · have ht : tick s = { (ExecuteStep defaultReport SyncController 8 s).2 with
          last_report := (ExecuteStep defaultReport SyncController 8 s).1 } := by
        unfold tick
        rw [tick_phase0 s h0 h1]
      rw [ht]
      rcases ExecuteStep_phase_cases defaultReport SyncController 8 s with hc | hc
      · exact Or.inl ⟨hc, ExecuteStep_egg _ _ _ _⟩
      · exact Or.inr (Or.inl ⟨by omega, hc, ExecuteStep_egg _ _ _ _⟩)
    · have ht : tick s = { (ExecuteStepPartialLoop defaultReport GetEgg 22 13 15
            (s.egg_slot + 1) s).2 with
          last_report := (ExecuteStepPartialLoop defaultReport GetEgg 22 13 15
            (s.egg_slot + 1) s).1 } := by
        unfold tick
        rw [tick_phase1 s h0 h1]
      rw [ht]
      rcases ExecuteStepPartialLoop_phase_cases defaultReport GetEgg 22 13 15
          (s.egg_slot + 1) s with hc | hc
      · exact Or.inl ⟨hc, ExecuteStepPartialLoop_egg _ _ _ _ _ _ _⟩
      · exact Or.inr (Or.inl ⟨by omega, hc,
          ExecuteStepPartialLoop_egg _ _ _ _ _ _ _⟩)
    · have ht : tick s = { (ExecuteStep defaultReport Recall 11 s).2 with
          last_report := (ExecuteStep defaultReport Recall 11 s).1 } := by
        unfold tick
        rw [tick_phase2 s h0 h1]
      rw [ht]
      rcases ExecuteStep_phase_cases defaultReport Recall 11 s with hc | hc
      · exact Or.inl ⟨hc, ExecuteStep_egg _ _ _ _⟩
      · exact Or.inr (Or.inl ⟨by omega, hc, ExecuteStep_egg _ _ _ _⟩)
    · have ht : tick s = { (ExecuteStepLoop defaultReport BikeBig 2 55 s).2 with
          last_report := (ExecuteStepLoop defaultReport BikeBig 2 55 s).1 } := by
        unfold tick
        rw [tick_phase3 s h0 h1]
      rw [ht]
      rcases ExecuteStepLoop_phase_cases defaultReport BikeBig 2 55 s with hc | hc
      · exact Or.inl ⟨hc, ExecuteStepLoop_egg _ _ _ _ _⟩
      · exact Or.inr (Or.inl ⟨by omega, hc, ExecuteStepLoop_egg _ _ _ _ _⟩)
    · have ht : tick s = { (if (ExecuteStep defaultReport Recall 11 s).2.phase = 5
            then { (ExecuteStep defaultReport Recall 11 s).2 with
              phase := 1,
              egg_slot := ((ExecuteStep defaultReport Recall 11 s).2.egg_slot + 1) % 5 }
            else (ExecuteStep defaultReport Recall 11 s).2) with
          last_report := (ExecuteStep defaultReport Recall 11 s).1 } := by
        unfold tick
        rw [tick_phase4 s h0 h1]
      rw [ht]
      rcases ExecuteStep_phase_cases defaultReport Recall 11 s with hc | hc
      · rw [if_neg (by omega)]
        exact Or.inl ⟨hc, ExecuteStep_egg _ _ _ _⟩
      · rw [if_pos (by omega)]
        refine Or.inr (Or.inr ⟨h1, rfl, ?_⟩)
        dsimp only
        rw [ExecuteStep_egg]
  · have ht : tick s = { s with echoes := s.echoes - 1 } := by
      unfold tick
      rw [GetNextReport_echo s (by omega)]
    rw [ht]
    exact Or.inl ⟨rfl, rfl⟩

/-- Scheduler invariant: the phase stays within the dispatch range and the
slot counter always equals the number of completed outer cycles modulo 5. -/
theorem C3_inv (k : Nat) :
    (stateAt k).phase ≤ 4 ∧ (stateAt k).egg_slot = wrapCount k % 5 := by
  induction k with
  | zero => exact ⟨by decide, rfl⟩
  | succ k ih =>
    obtain ⟨ih1, ih2⟩ := ih
    have hstep : stateAt (k + 1) = tick (stateAt k) := rfl
    rcases tick_phase_cases (stateAt k) ih1 with ⟨hp, he⟩ | ⟨hlt, hp, he⟩
      | ⟨h4, hp, he⟩
    · refine ⟨by rw [hstep, hp]; omega, ?_⟩
      rw [wrapCount, if_neg (by
        intro hc
        rw [hstep, hp] at hc
        omega)]
      rw [hstep, he, ih2]
      omega
    · refine ⟨by rw [hstep, hp]; omega, ?_⟩
      rw [wrapCount, if_neg (by
        intro hc
        omega)]
      rw [hstep, he, ih2]
      omega
    · refine ⟨by rw [hstep, hp]; omega, ?_⟩
      rw [wrapCount, if_pos ⟨h4, by rw [hstep, hp]⟩]
      rw [hstep, he, ih2]
      omega

/-- C3: the scheduler has no terminal state.  From power-on (phase 0, slot
0) the phase always stays in range; once the one-time sync phase is left it
is never re-entered; each tick either keeps the phase, advances it by one,
or — exactly when the repeat-point phase 4 completes — wraps back to phase
1 while the slot counter advances modulo 5; consequently the slot counter
always reads the number of completed cycles modulo 5, and in particular
reads 0 again after the fifth completion. -/
theorem claim_C3 (k : Nat) :
    (stateAt 0).phase = 0 ∧ (stateAt 0).egg_slot = 0
    ∧ (stateAt k).phase ≤ 4
    ∧ (1 ≤ (stateAt k).phase → 1 ≤ (stateAt (k + 1)).phase)
    ∧ (((stateAt (k + 1)).phase = (stateAt k).phase
          ∧ (stateAt (k + 1)).egg_slot = (stateAt k).egg_slot)
        ∨ ((stateAt k).phase < 4
          ∧ (stateAt (k + 1)).phase = (stateAt k).phase + 1
          ∧ (stateAt (k + 1)).egg_slot = (stateAt k).egg_slot)
        ∨ ((stateAt k).phase = 4 ∧ (stateAt (k + 1)).phase = 1
          ∧ (stateAt (k + 1)).egg_slot = ((stateAt k).egg_slot + 1) % 5))
    ∧ (stateAt k).egg_slot = wrapCount k % 5 := by
  obtain ⟨i1, i2⟩ := C3_inv k
  have hc := tick_phase_cases (stateAt k) i1
  refine ⟨rfl, rfl, i1, ?_, hc, i2⟩
  intro h1
  have hstep : stateAt (k + 1) = tick (stateAt k) := rfl
  rw [hstep]
  rcases hc with ⟨hp, _⟩ | ⟨_, hp, _⟩ | ⟨_, hp, _⟩ <;> rw [hp] <;> omega

theorem claim_C3_witness :
    1 ≤ (stateAt 338).phase ∧ 1 ≤ (stateAt 339).phase := by
  have h1 : 1 ≤ (stateAt 338).phase := by
    rw [stateAt_338]
    decide
  exact ⟨h1, (claim_C3 338).2.2.2.1 h1⟩

theorem C8Inv_tick (s : ExecState) (h : C8Inv s) : C8Inv (tick s) := by
  obtain ⟨h1, h2, h3, h4, h5, h6⟩ := h
  by_cases h0 : s.echoes = 0
  · have hcases : s.phase = 0 ∨ s.phase = 1 ∨ s.phase = 2 ∨ s.phase = 3
        ∨ s.phase = 4 := by omega
    rcases hcases with hp | hp | hp | hp | hp
    · have hl0 : s.loop_num = 0 := h6 (Or.inl hp)
      have ht : tick s = { (ExecuteStep defaultReport SyncController 8 s).2 with
          last_report := (ExecuteStep defaultReport SyncController 8 s).1 } := by
        unfold tick
        rw [tick_phase0 s h0 hp]
      rw [ht, ExecuteStep_snd]
      rw [phaseLen, if_pos hp] at h2
      split <;> simp only [C8Inv, phaseLen, hp] <;> norm_num <;> omega
    · have hl1 : s.loop_num ≤ s.egg_slot := h4 hp
      have ht : tick s = { (ExecuteStepPartialLoop defaultReport GetEgg 22 13 15
            (s.egg_slot + 1) s).2 with
          last_report := (ExecuteStepPartialLoop defaultReport GetEgg 22 13 15
            (s.egg_slot + 1) s).1 } := by
        unfold tick
        rw [tick_phase1 s h0 hp]
      rw [ht, ExecuteStepPartialLoop_snd]
      rw [phaseLen, if_neg (by omega), if_pos hp] at h2
      split <;> split <;> simp only [C8Inv, phaseLen, hp] <;> norm_num <;>
        omega
    · have hl2 : s.loop_num = 0 := h6 (Or.inr (Or.inl hp))
      have ht : tick s = { (ExecuteStep defaultReport Recall 11 s).2 with
          last_report := (ExecuteStep defaultReport Recall 11 s).1 } := by
        unfold tick
        rw [tick_phase2 s h0 hp]
      rw [ht, ExecuteStep_snd]
      rw [phaseLen, if_neg (by omega), if_neg (by omega), if_pos hp] at h2
      split <;> simp only [C8Inv, phaseLen, hp] <;> norm_num <;> omega
    · have hl3 : s.loop_num < 55 := h5 hp
      have ht : tick s = { (ExecuteStepLoop defaultReport BikeBig 2 55 s).2 with
          last_report := (ExecuteStepLoop defaultReport BikeBig 2 55 s).1 } := by
        unfold tick
        rw [tick_phase3 s h0 hp]
      rw [ht, ExecuteStepLoop_snd]
      rw [phaseLen, if_neg (by omega), if_neg (by omega), if_neg (by omega),
        if_pos hp] at h2
      split <;> (try split) <;> simp only [C8Inv, phaseLen, hp] <;> norm_num <;>
        omega
    · have hl4 : s.loop_num = 0 := h6 (Or.inr (Or.inr hp))
      have ht : tick s = { (if (ExecuteStep defaultReport Recall 11 s).2.phase = 5
            then { (ExecuteStep defaultReport Recall 11 s).2 with
              phase := 1,
              egg_slot := ((ExecuteStep defaultReport Recall 11 s).2.egg_slot + 1) % 5 }
            else (ExecuteStep defaultReport Recall 11 s).2) with
          last_report := (ExecuteStep defaultReport Recall 11 s).1 } := by
        unfold tick
        rw [tick_phase4 s h0 hp]
      rw [ht, ExecuteStep_snd]
      rw [phaseLen, if_neg (by omega), if_neg (by omega), if_neg (by omega),
        if_neg (by omega), if_pos hp] at h2
      split <;> simp only [C8Inv, phaseLen, hp] <;> norm_num <;> omega
  · have ht : tick s = { s with echoes := s.echoes - 1 } := by
      unfold tick
      rw [GetNextReport_echo s (by omega)]
    rw [ht]
    exact ⟨h1, h2, h3, h4, h5, h6⟩

theorem C8Inv_stateAt (k : Nat) : C8Inv (stateAt k) := by
  induction k with
  | zero => exact ⟨by decide, by decide, by decide, by decide, by decide,
      by decide⟩
  | succ k ih => exact C8Inv_tick (stateAt k) ih

/-- C8: at every reachable engine state the step cursor is strictly inside
the table of the active phase (so it is in bounds whenever a step is read),
and while a looping phase is in progress the loop counter is strictly below
the target repetition count of that mode (`egg_slot + 1` for the partial
loop of phase 1, 55 for the full loop of phase 3). -/
theorem claim_C8 (k : Nat) :
    (stateAt k).step_num < phaseLen (stateAt k).phase
    ∧ ((stateAt k).phase = 1 →
        (stateAt k).loop_num < (stateAt k).egg_slot + 1)
    ∧ ((stateAt k).phase = 3 → (stateAt k).loop_num < 55) := by
  obtain ⟨_, h2, _, h4, h5, _⟩ := C8Inv_stateAt k
  exact ⟨h2, fun hp => by have := h4 hp; omega, h5⟩

theorem claim_C8_witness :
    ((stateAt 338).phase = 1
      ∧ (stateAt 338).loop_num < (stateAt 338).egg_slot + 1)
    ∧ ((stateAt 4100).phase = 3 ∧ (stateAt 4100).loop_num < 55) := by
  have h1 : (stateAt 338).phase = 1 := by
    rw [stateAt_338]
    decide
  have h3 : (stateAt 4100).phase = 3 := by
    rw [stateAt_4100]
    decide
  exact ⟨⟨h1, (claim_C8 338).2.1 h1⟩, ⟨h3, (claim_C8 4100).2.2 h3⟩⟩

theorem claim_C6_witness :
    eggState.loop_num = 0
    ∧ ExecuteStepPartialLoop defaultReport GetEgg 22 13 15 1 eggState
        = ExecuteStep defaultReport GetEgg 22 eggState :=
  ⟨by decide, claim_C6 defaultReport GetEgg 22 13 15 eggState (by decide)⟩
